import Mathlib

/-! Vehicle tracking front end: the live map state and its renderers.

A shallow embedding of `static/js/tracking.js` (the marker / polyline / active-set
tables, their event handlers, the two sidebar renderers and the two form handlers), of
`static/js/analytics.js` (the table renderers, `loadAnalytics` and the CSV export) and
of the command processing of `static/js/voice-assistant.js`.

Modelling conventions.

* A JavaScript object used as a table (`vehicleMarkers`, `vehiclePolylines`) is the
  list of its own properties in insertion order, which is the order of `Object.values`
  for keys that are not array indices; the totals taken over it are exact sums, which do
  not depend on the order.  A read `table[key]` that finds no own property falls through
  to `Object.prototype`: for the names in `objectPrototypeNames` it gives a truthy value
  that is neither a marker nor a polyline (`inherited`).
* The `Set` `activeVehicles` is a duplicate-free list in insertion order whose
  elements are JavaScript values: a string, or `undefined` (`none`).
* JavaScript numbers are rationals and sums of distances are exact; `distanceTo` of the
  map library is a parameter `dist`.  Where the code divides or adds one and prints the
  result (`formatTime`, the next vehicle id), the result is rounded to the nearest
  double (`roundDouble`) and printed as `String` prints a whole double (`intText`).
  Number formatting with `toFixed` is display only: a DOM text written from a number is
  recorded as that number.
* The `innerHTML` of the sidebar is recorded as the list of the filled holes of its
  blocks (`Sidebar`); `Sidebar.innerHTML` is the text itself, the template literal of
  the source with the holes filled, nothing escaped.  The text of a number in a hole is
  a parameter `numText`.
* A DOM element looked up by id is `none` when the page has no such element; writing
  a property of a missing element raises a `TypeError`.  A raised error does not roll
  the tables back, so every operation returns an `Outcome`: the state reached and the
  error, if any, that ended the call.
* `setTimeout` appends a pending timer (delay and captured vehicle id) to the state;
  the callback runs when the timer is fired.
* A request is modelled by what awaiting it gives (`Reply`); a handler returns the
  alerts it shows, the requests it sends and whether an error escapes it.
* Texts are strings, taken apart as character lists; the regular expressions of the
  voice assistant are backtracking matchers that try alternatives in the order of the
  JavaScript engine.  A voice command returns the list of its actions.
-/

namespace Tracking

/-! ## JavaScript tables and sets -/

/-- Own-property read `table[key]`; `none` is `undefined`. -/
def jsGet {α : Type} (key : String) : List (String × α) → Option α
  | [] => none
  | (k, a) :: rest => if k = key then some a else jsGet key rest

/-- The property names that every plain object inherits from `Object.prototype`.  A read
`table[key]` of such a name finds the inherited value, which is truthy (a function, or
the prototype itself), when the table has no own property of that name. -/
def objectPrototypeNames : List String :=
  ["constructor", "__proto__", "__defineGetter__", "__defineSetter__", "__lookupGetter__",
   "__lookupSetter__", "hasOwnProperty", "isPrototypeOf", "propertyIsEnumerable",
   "toLocaleString", "toString", "valueOf"]

/-- Whether `key` names a property inherited from `Object.prototype`. -/
def inherited (key : String) : Bool := decide (key ∈ objectPrototypeNames)

/-- Property write `table[key] = value`: an existing key keeps its place, a new key
goes last. -/
def jsSet {α : Type} (key : String) (value : α) : List (String × α) → List (String × α)
  | [] => [(key, value)]
  | (k, a) :: rest => if k = key then (k, value) :: rest else (k, a) :: jsSet key value rest

/-- Property removal `delete table[key]`. -/
def jsDelete {α : Type} (key : String) : List (String × α) → List (String × α)
  | [] => []
  | (k, a) :: rest => if k = key then jsDelete key rest else (k, a) :: jsDelete key rest

/-- The values of the own properties, `Object.values(table)`. -/
def jsValues {α : Type} (table : List (String × α)) : List α := table.map Prod.snd

/-- Set insertion `set.add(x)`. -/
def setAdd (x : Option String) (set : List (Option String)) : List (Option String) :=
  if x ∈ set then set else set ++ [x]

/-- Set removal `set.delete(x)`. -/
def setDelete (x : Option String) (set : List (Option String)) : List (Option String) :=
  set.filter (fun y => decide (y ≠ x))

/-! ## Data model -/

/-- A map position `[latitude, longitude]`. -/
structure LatLng where
  lat : ℚ
  lng : ℚ
deriving DecidableEq, Repr, Inhabited

/-- The payload of a `gps_update` event. -/
structure VehicleUpdate where
  vehicle_id : String
  latitude : ℚ
  longitude : ℚ
  speed : ℚ
  progress : ℚ
  distance_covered : ℚ
  elapsed_time : ℚ
deriving DecidableEq, Repr

/-- JavaScript remainder `x % 60` on numbers: the sign follows the dividend. -/
def jsRem60 (x : ℚ) : ℚ :=
  if 0 ≤ x then x - 60 * (⌊x / 60⌋ : ℤ) else x - 60 * (⌈x / 60⌉ : ℤ)

/-- Rounding to the nearest integer, a tie going to the even neighbour. -/
def roundHalfEven (x : ℚ) : ℤ :=
  if x - (⌊x⌋ : ℤ) < 1 / 2 then ⌊x⌋
  else if 1 / 2 < x - (⌊x⌋ : ℤ) then ⌊x⌋ + 1
  else if ⌊x⌋ % 2 = 0 then ⌊x⌋ else ⌊x⌋ + 1

/-- The IEEE 754 double nearest to a rational number, which is what an arithmetic
operation on doubles returns for its exact result: 53 significant bits, the exponent of
the last bit not below -1074, a tie going to the even significand.  Overflow to
`Infinity` is told apart by the caller where it can happen (`overflowsWhole`). -/
def roundDouble (x : ℚ) : ℚ :=
  if x = 0 then 0
  else (roundHalfEven (x / 2 ^ max (Int.log 2 |x| - 52) (-1074)) : ℚ)
    * 2 ^ max (Int.log 2 |x| - 52) (-1074)

/-- The decimal with the digits of `x` above position `p` that reads back as the double
`x`, if there is one: the digits cut off rounded down or up, the nearer of the two when
both read back as `x`. -/
def candidateFor (x : Nat) (p : Nat) : Option Nat :=
  let lo := x / 10 ^ p * 10 ^ p
  let hi := lo + 10 ^ p
  let okLo := decide (roundDouble (lo : ℚ) = (x : ℚ))
  let okHi := decide (roundDouble (hi : ℚ) = (x : ℚ))
  if okLo && okHi then
    if x - lo < hi - x then some lo
    else if hi - x < x - lo then some hi
    else if (lo / 10 ^ p) % 2 = 0 then some lo else some hi
  else if okLo then some lo
  else if okHi then some hi
  else none

/-- The decimal of fewest significant digits that reads back as the double `x`. -/
def shortestDecimal (x : Nat) : Nat :=
  (((List.range (Nat.toDigits 10 x).length).reverse.filterMap
    (fun p => candidateFor x p)).head?).getD x

/-- A run of digits without its trailing zeros. -/
def stripZeros (digits : List Char) : List Char :=
  (digits.reverse.dropWhile (fun c => decide (c = '0'))).reverse

/-- The text `String(x)` of a double with a whole value `x ≥ 0`: below `2 ^ 53` its
decimal digits; from there on the shortest decimal that reads back as `x`, written in
full when it has at most 21 digits and with an exponent otherwise. -/
def natText (x : Nat) : String :=
  if x < 2 ^ 53 then toString x
  else
    let digits := Nat.toDigits 10 (shortestDecimal x)
    if digits.length ≤ 21 then String.mk digits
    else
      match stripZeros digits with
      | [] => "0"
      | [d] => String.mk [d] ++ "e+" ++ toString (digits.length - 1)
      | d :: rest => String.mk (d :: '.' :: rest) ++ "e+" ++ toString (digits.length - 1)

/-- The text `String(z)` of a double with a whole value `z`. -/
def intText (z : ℤ) : String :=
  if z < 0 then "-" ++ natText z.natAbs else natText z.natAbs

/-- Format time helper: `mins = floor(seconds / 60)`, `secs = floor(seconds % 60)`, the
two written into the template `${mins}m ${secs}s`.  The argument is a double; the
division gives the double nearest to the quotient, the remainder is exact. -/
def formatTime (seconds : ℚ) : String :=
  let mins : ℤ := ⌊roundDouble (seconds / 60)⌋
  let secs : ℤ := ⌊jsRem60 seconds⌋
  intText mins ++ "m " ++ intText secs ++ "s"

/-- The popup of a marker: the holes of its HTML template. -/
structure Popup where
  vehicleId : String
  speed : ℚ
  progress : ℚ
  distance : ℚ
  time : String
deriving DecidableEq, Repr

/-- The popup content built from an update (both branches use the same template). -/
def popupContent (data : VehicleUpdate) : Popup :=
  { vehicleId := data.vehicle_id
    speed := data.speed
    progress := data.progress
    distance := data.distance_covered
    time := formatTime data.elapsed_time }

/-- A map marker: its position, the label of its icon and its popup. -/
structure Marker where
  latLng : LatLng
  icon : String
  popup : Popup
deriving DecidableEq, Repr

/-- One `vehicle-item` block of the sidebar: the holes of its template. -/
structure VehicleItem where
  vid : String
  status : String
  width : ℚ
deriving DecidableEq, Repr

/-- The `innerHTML` of the sidebar container. -/
inductive Sidebar where
  | emptyState
  | items (list : List VehicleItem)
deriving DecidableEq, Repr

/-- The DOM elements the tracking renderers write to; `none`: no such element. -/
structure Dom where
  activeVehicles : Option Sidebar
  totalVehicles : Option Nat
  totalDistance : Option ℚ
deriving DecidableEq, Repr

/-- A pending `setTimeout`: its delay in milliseconds and the vehicle id captured by
the callback. -/
structure Timer where
  delay : Nat
  vehicleId : String
deriving DecidableEq, Repr

/-- The module-level state of the tracking page. -/
structure State where
  vehicleMarkers : List (String × Marker)
  vehiclePolylines : List (String × List LatLng)
  activeVehicles : List (Option String)
  dom : Dom
  timers : List Timer
deriving DecidableEq, Repr

/-- The state after the script has loaded: empty tables, no pending timer. -/
def initialState (dom : Dom) : State :=
  { vehicleMarkers := []
    vehiclePolylines := []
    activeVehicles := []
    dom := dom
    timers := [] }

/-- A raised JavaScript error. -/
inductive JsError where
  | typeError (what : String)
deriving DecidableEq, Repr

/-- The result of running a handler: the state it leaves and the error that ended
it, if one was raised. -/
structure Outcome where
  state : State
  thrown : Option JsError
deriving DecidableEq, Repr

/-- Sequencing of statements: the rest runs only when nothing was raised. -/
def Outcome.andThen (o : Outcome) (rest : State → Outcome) : Outcome :=
  match o.thrown with
  | some _ => o
  | none => rest o.state

/-! ## Renderers -/

/-- The text that a template hole shows for a value that is a string or `undefined`
(`null`, which would show as `null`, is not among the values of the model). -/
def vidText : Option String → String
  | none => "undefined"
  | some s => s

/-- The body of the `forEach` in `updateActiveVehiclesList`:
`progress = data && vid === vehicleId ? data.progress : 0`. -/
def vehicleItem (vehicleId : Option String) (data : Option VehicleUpdate)
    (vid : Option String) : VehicleItem :=
  let progress : ℚ :=
    match data with
    | some d => if vid = vehicleId then d.progress else 0
    | none => 0
  { vid := vidText vid, status := "Active", width := progress }

/-- Update active vehicles list in sidebar. -/
def updateActiveVehiclesList (vehicleId : Option String) (data : Option VehicleUpdate)
    (s : State) : Outcome :=
  let s1 : State := { s with activeVehicles := setAdd vehicleId s.activeVehicles }
  let container := s1.dom.activeVehicles
  if s1.activeVehicles.length = 0 then
    match container with
    | none => ⟨s1, some (.typeError "activeVehicles")⟩
    | some _ => ⟨{ s1 with dom := { s1.dom with activeVehicles := some .emptyState } }, none⟩
  else
    let html := s1.activeVehicles.map (vehicleItem vehicleId data)
    match container with
    | none => ⟨s1, some (.typeError "activeVehicles")⟩
    | some _ => ⟨{ s1 with dom := { s1.dom with activeVehicles := some (.items html) } }, none⟩

/-- The template literal of one `vehicle-item` block with its holes filled; `numText`
is the text of a number in a template hole. -/
def itemHtml (numText : ℚ → String) (item : VehicleItem) : String :=
  "\n            <div class=\"vehicle-item\" onclick=\"focusVehicle('" ++ item.vid
    ++ "')\">\n                <div class=\"vehicle-header\">\n                    <span class=\"vehicle-id\">"
    ++ item.vid
    ++ "</span>\n                    <span class=\"vehicle-status active\">" ++ item.status
    ++ "</span>\n                </div>\n                <div class=\"vehicle-progress\">\n                    <div class=\"progress-bar\" style=\"width: "
    ++ numText item.width
    ++ "%\"></div>\n                </div>\n            </div>\n        "

/-- The template literal of the empty state. -/
def emptyStateHtml : String :=
  "\n            <div class=\"empty-state\">\n                <i class=\"fas fa-car\"></i>\n                <p>No active vehicles</p>\n            </div>\n        "

/-- The text assigned to `container.innerHTML`: the empty-state literal, or the blocks
appended one after the other (`html += ...`) to the empty text. -/
def Sidebar.innerHTML (numText : ℚ → String) : Sidebar → String
  | .emptyState => emptyStateHtml
  | .items list => list.foldl (fun html item => html ++ itemHtml numText item) ""

/-- The number of places of `text` at which `pat` starts. -/
def countStarts (pat : List Char) : List Char → Nat
  | [] => 0
  | c :: rest => (if pat.isPrefixOf (c :: rest) then 1 else 0) + countStarts pat rest

/-- The opening of a `vehicle-item` block. -/
def itemOpening : List Char := "<div class=\"vehicle-item\"".data

/-- Whether `t` is a beginning of `pat` that stops short of its end. -/
def properStart (t pat : List Char) : Bool := t.isPrefixOf pat && decide (t.length < pat.length)

/-- Whether no ending of `text` is a beginning of `pat` that stops short of its end: what
follows `text` cannot complete a start of `pat` inside it. -/
def settled (pat : List Char) : List Char → Bool
  | [] => true
  | c :: rest => !(properStart (c :: rest) pat) && settled pat rest

/-- The inner loop of `updateMetrics`:
`for (i = 1; i < latlngs.length; i++) total += latlngs[i-1].distanceTo(latlngs[i]) / 1000`. -/
def addSegments (dist : LatLng → LatLng → ℚ) (latlngs : List LatLng) (total : ℚ) : ℚ :=
  (List.range' 1 (latlngs.length - 1)).foldl
    (fun acc i => acc + dist (latlngs.getD (i - 1) default) (latlngs.getD i default) / 1000)
    total

/-- The total distance that `updateMetrics` accumulates over `Object.values(vehiclePolylines)`. -/
def totalDistance (dist : LatLng → LatLng → ℚ) (s : State) : ℚ :=
  (jsValues s.vehiclePolylines).foldl (fun total latlngs => addSegments dist latlngs total) 0

/-- Update metrics panel. -/
def updateMetrics (dist : LatLng → LatLng → ℚ) (s : State) : Outcome :=
  match s.dom.totalVehicles with
  | none => ⟨s, some (.typeError "totalVehicles")⟩
  | some _ =>
    let s1 : State := { s with dom := { s.dom with totalVehicles := some s.activeVehicles.length } }
    let total := totalDistance dist s1
    match s1.dom.totalDistance with
    | none => ⟨s1, some (.typeError "totalDistance")⟩
    | some _ => ⟨{ s1 with dom := { s1.dom with totalDistance := some total } }, none⟩

/-! ## Event handlers -/

/-- The test `!vehicleMarkers[vehicleId]` is false although the table has no marker of
that id: the id names an inherited property. -/
def rejectsUpdate (data : VehicleUpdate) (s : State) : Bool :=
  (jsGet data.vehicle_id s.vehicleMarkers).isNone && inherited data.vehicle_id

/-- Update vehicle on map (the `gps_update` handler). -/
def updateVehicleOnMap (dist : LatLng → LatLng → ℚ) (data : VehicleUpdate) (s : State) :
    Outcome :=
  let vehicleId := data.vehicle_id
  let latLng : LatLng := ⟨data.latitude, data.longitude⟩
  if rejectsUpdate data s then
    -- `vehicleMarkers[vehicleId]` is an inherited value: the update branch is taken and
    -- `setLatLng` is not a function of that value
    ⟨s, some (.typeError "setLatLng")⟩
  else
    -- create or update marker
    let s1 : State :=
      match jsGet vehicleId s.vehicleMarkers with
      | none =>
        { s with
          vehicleMarkers :=
            jsSet vehicleId ⟨latLng, vehicleId, popupContent data⟩ s.vehicleMarkers
          vehiclePolylines := jsSet vehicleId [] s.vehiclePolylines }
      | some marker =>
        { s with
          vehicleMarkers :=
            jsSet vehicleId { marker with latLng := latLng, popup := popupContent data }
              s.vehicleMarkers }
    -- update polyline (without an own path the read gives `undefined` or an inherited
    -- value, and `addLatLng` raises either way)
    match jsGet vehicleId s1.vehiclePolylines with
    | none => ⟨s1, some (.typeError "addLatLng")⟩
    | some path =>
      let s2 : State :=
        { s1 with vehiclePolylines := jsSet vehicleId (path ++ [latLng]) s1.vehiclePolylines }
      (updateActiveVehiclesList (some vehicleId) (some data) s2).andThen (updateMetrics dist)

/-- The grace period before a completed vehicle is removed, in milliseconds. -/
def removalDelay : Nat := 3000

/-- Handle vehicle completion (the `vehicle_completed` handler): schedules the removal. -/
def handleVehicleCompletion (vehicleId : String) (s : State) : State :=
  if (jsGet vehicleId s.vehicleMarkers).isSome || inherited vehicleId then
    { s with timers := s.timers ++ [⟨removalDelay, vehicleId⟩] }
  else s

/-- The callback that `handleVehicleCompletion` hands to `setTimeout`.  The map
library stamps the layer it is asked to remove, so `removeLayer(undefined)` raises; an
inherited value is stamped and, not being a layer of the map, ignored.  `delete` of a
name the table does not own changes nothing. -/
def removeVehicle (dist : LatLng → LatLng → ℚ) (vehicleId : String) (s : State) : Outcome :=
  if (jsGet vehicleId s.vehicleMarkers).isNone && !inherited vehicleId then
    ⟨s, some (.typeError "removeLayer")⟩
  else
    let s1 : State := { s with vehicleMarkers := jsDelete vehicleId s.vehicleMarkers }
    let s2 : State :=
      if (jsGet vehicleId s1.vehiclePolylines).isSome || inherited vehicleId then
        { s1 with vehiclePolylines := jsDelete vehicleId s1.vehiclePolylines }
      else s1
    let s3 : State := { s2 with activeVehicles := setDelete (some vehicleId) s2.activeVehicles }
    (updateActiveVehiclesList none none s3).andThen (updateMetrics dist)

/-- Clear all vehicles (the click handler of `clearMapBtn`); `confirmed` is the answer
to the `confirm` dialog. -/
def clearMap (dist : LatLng → LatLng → ℚ) (confirmed : Bool) (s : State) : Outcome :=
  if confirmed then
    let s1 : State := { s with vehicleMarkers := [], vehiclePolylines := [], activeVehicles := [] }
    (updateActiveVehiclesList none none s1).andThen (updateMetrics dist)
  else ⟨s, none⟩

/-- What the event loop can deliver to the page. -/
inductive Event where
  | gps_update (data : VehicleUpdate)
  | vehicle_completed (vehicle_id : String)
  | timeout (k : Nat)
  | clearMapClick (confirmed : Bool)
deriving DecidableEq, Repr

/-- One turn of the event loop.  `timeout k` fires the pending timer at index `k`
(nothing happens when there is none).  An error raised by a handler ends that handler
only. -/
def step (dist : LatLng → LatLng → ℚ) (s : State) : Event → State
  | .gps_update data => (updateVehicleOnMap dist data s).state
  | .vehicle_completed vehicle_id => handleVehicleCompletion vehicle_id s
  | .timeout k =>
    match s.timers[k]? with
    | none => s
    | some t => (removeVehicle dist t.vehicleId { s with timers := s.timers.eraseIdx k }).state
  | .clearMapClick confirmed => (clearMap dist confirmed s).state

/-- Processing a sequence of events in arrival order. -/
def run (dist : LatLng → LatLng → ℚ) (s : State) (events : List Event) : State :=
  events.foldl (step dist) s

/-! ## The analytics page renderers (`static/js/analytics.js`) -/

/-- The `summary` object of the analytics response. -/
structure Summary where
  total_trips : ℚ
  total_distance_km : ℚ
  total_time_hours : ℚ
  avg_speed_kmh : ℚ
deriving DecidableEq, Repr

/-- One entry of the trip list; `none` is a missing property (`undefined`). -/
structure Trip where
  vehicle_id : Option String
  date : String
  distance : ℚ
  duration : ℚ
  speed : ℚ
  status : Option String
deriving DecidableEq, Repr

/-- One `<tr>` of the trip history table: the holes of its template. -/
structure TripRow where
  vehicle : String
  date : String
  distance : ℚ
  duration : ℚ
  speed : ℚ
  statusColor : String
  statusLabel : String
deriving DecidableEq, Repr

/-- The `innerHTML` of the trip table body. -/
inductive TripTable where
  | noData
  | rows (list : List TripRow)
deriving DecidableEq, Repr

/-- The DOM elements the analytics renderers write to; `none`: no such element. -/
structure AnalyticsDom where
  tripTableBody : Option TripTable
  totalTrips : Option ℚ
  totalKm : Option ℚ
  totalTime : Option ℚ
  avgSpeedStat : Option ℚ
deriving DecidableEq, Repr

/-- The result of an analytics renderer: the DOM it leaves and the error raised. -/
structure AnalyticsOutcome where
  dom : AnalyticsDom
  thrown : Option JsError
deriving DecidableEq, Repr

/-- Update statistics: four writes in source order, each to an element looked up by id. -/
def updateStatistics (summary : Summary) (dom : AnalyticsDom) : AnalyticsOutcome :=
  match dom.totalTrips with
  | none => ⟨dom, some (.typeError "totalTrips")⟩
  | some _ =>
    let d1 := { dom with totalTrips := some summary.total_trips }
    match d1.totalKm with
    | none => ⟨d1, some (.typeError "totalKm")⟩
    | some _ =>
      let d2 := { d1 with totalKm := some summary.total_distance_km }
      match d2.totalTime with
      | none => ⟨d2, some (.typeError "totalTime")⟩
      | some _ =>
        let d3 := { d2 with totalTime := some summary.total_time_hours }
        match d3.avgSpeedStat with
        | none => ⟨d3, some (.typeError "avgSpeedStat")⟩
        | some _ => ⟨{ d3 with avgSpeedStat := some summary.avg_speed_kmh }, none⟩

/-- The row built for one trip.  The label is the status with its first character in
upper case, `Unknown` for a missing or empty status.  The upper case is that of the
letters `a` to `z`; a status that starts with another cased character is outside the
model. -/
def tripRow (trip : Trip) : TripRow :=
  let statusLabel : String :=
    match trip.status with
    | some st => if st = "" then "Unknown" else st.capitalize
    | none => "Unknown"
  let statusColor : String :=
    if trip.status = some "completed" then "#10b981"
    else if trip.status = some "cancelled" then "#ef4444"
    else "#f59e0b"
  let vehicle : String :=
    match trip.vehicle_id with
    | some v => if v = "" then "-" else v
    | none => "-"
  { vehicle := vehicle
    date := trip.date
    distance := trip.distance
    duration := trip.duration
    speed := trip.speed
    statusColor := statusColor
    statusLabel := statusLabel }

/-- Populate trip history table; `trips = none` is a missing argument. -/
def populateTripTable (trips : Option (List Trip)) (dom : AnalyticsDom) : AnalyticsOutcome :=
  match dom.tripTableBody with
  | none => ⟨dom, none⟩
  | some _ =>
    match trips with
    | none => ⟨{ dom with tripTableBody := some .noData }, none⟩
    | some list =>
      if list.length = 0 then ⟨{ dom with tripTableBody := some .noData }, none⟩
      else ⟨{ dom with tripTableBody := some (.rows (list.map tripRow)) }, none⟩

/-! ## Text helpers and the CSV export (`exportTripData`) -/

/-- The line feed character. -/
def newline : Char := Char.ofNat 10

/-- String splitting `text.split(sep)` for a one-character separator, on character
lists: the pieces between the separators, in order (an empty text gives one empty
piece). -/
def splitChars (sep : Char) : List Char → List (List Char)
  | [] => [[]]
  | c :: rest =>
    if c = sep then [] :: splitChars sep rest
    else
      match splitChars sep rest with
      | [] => [[c]]
      | piece :: pieces => (c :: piece) :: pieces

/-- The first column of a CSV line: `trip.vehicle_id || ''`. -/
def csvVehicle (trip : Trip) : String :=
  match trip.vehicle_id with
  | some v => v
  | none => ""

/-- The six texts that the template of `exportTripData` joins for one trip.  `numText`
is the text JavaScript gives a number in a template. -/
def csvFields (numText : ℚ → String) (trip : Trip) : List String :=
  [csvVehicle trip, trip.date, numText trip.distance, numText trip.duration,
   numText trip.speed, vidText trip.status]

/-- The header line of the export, without its line feed. -/
def csvHeader : String :=
  "Vehicle ID,Date & Time,Distance (km),Duration (min),Avg Speed (km/h),Status"

/-- Export data functionality: the CSV text that `exportTripData` builds from
`analyticsTrips`. -/
def exportTripData (numText : ℚ → String) (analyticsTrips : List Trip) : String :=
  analyticsTrips.foldl
    (fun csv trip =>
      csv ++ csvVehicle trip ++ "," ++ trip.date ++ "," ++ numText trip.distance ++ ","
        ++ numText trip.duration ++ "," ++ numText trip.speed ++ ","
        ++ vidText trip.status ++ "\n")
    (csvHeader ++ "\n")

/-- The line the spec expects for one trip: its six fields with commas between them. -/
def csvLine (numText : ℚ → String) (trip : Trip) : List Char :=
  (csvVehicle trip).data ++ [','] ++ trip.date.data ++ [','] ++ (numText trip.distance).data
    ++ [','] ++ (numText trip.duration).data ++ [','] ++ (numText trip.speed).data ++ [',']
    ++ (vidText trip.status).data

/-- A text without a comma and without a line feed. -/
def plainText (text : String) : Bool :=
  text.data.all (fun c => decide (c ≠ ',') && decide (c ≠ newline))

/-- A trip whose six field texts are all free of commas and line feeds. -/
def plainTrip (numText : ℚ → String) (trip : Trip) : Bool :=
  (csvFields numText trip).all plainText

/-- The text of a number for concrete runs: its integer part. -/
def wholeText (q : ℚ) : String := toString q.floor

/-- A trip whose date text contains a comma. -/
def commaTrip : Trip :=
  { vehicle_id := some "VEH-001", date := "Jan 5, 2024 10:30", distance := 12, duration := 30
    speed := 24, status := some "completed" }

/-- A trip whose texts are plain. -/
def plainSampleTrip : Trip :=
  { vehicle_id := none, date := "2024-01-05 10:30", distance := 12, duration := 30
    speed := 24, status := some "completed" }

/-! ## Numbers in texts: `parseInt`, `padStart` and the next vehicle id -/

/-- The white space of JavaScript. -/
def jsWhitespace (c : Char) : Bool :=
  c.toNat = 9 || c.toNat = 10 || c.toNat = 11 || c.toNat = 12 || c.toNat = 13 ||
  c.toNat = 32 || c.toNat = 160 || c.toNat = 5760 || (8192 ≤ c.toNat && c.toNat ≤ 8202) ||
  c.toNat = 8232 || c.toNat = 8233 || c.toNat = 8239 || c.toNat = 8287 ||
  c.toNat = 12288 || c.toNat = 65279

/-- A decimal digit `0` to `9`. -/
def isDecimalDigit (c : Char) : Bool := 48 ≤ c.toNat && c.toNat ≤ 57

/-- The value of a decimal digit. -/
def digitValue (c : Char) : Nat := c.toNat - 48

/-- The value of a hexadecimal digit, if it is one. -/
def hexValue (c : Char) : Option Nat :=
  if isDecimalDigit c then some (c.toNat - 48)
  else if 97 ≤ c.toNat && c.toNat ≤ 102 then some (c.toNat - 87)
  else if 65 ≤ c.toNat && c.toNat ≤ 70 then some (c.toNat - 55)
  else none

/-- The optional sign that `parseInt` reads: whether it was a minus, and the rest. -/
def stripSign : List Char → Bool × List Char
  | [] => (false, [])
  | c :: rest =>
    if c = '-' then (true, rest) else if c = '+' then (false, rest) else (false, c :: rest)

/-- The text after a `0x` or `0X` mark, if the text starts with one. -/
def hexBody : List Char → Option (List Char)
  | c0 :: c1 :: rest => if c0 = '0' ∧ (c1 = 'x' ∨ c1 = 'X') then some rest else none
  | _ => none

/-- The number written by a run of decimal digits. -/
def decimalValue (digits : List Char) : Nat :=
  digits.foldl (fun acc c => acc * 10 + digitValue c) 0

/-- The number written by a run of hexadecimal digits. -/
def hexDigitsValue (digits : List Char) : Nat :=
  digits.foldl (fun acc c => acc * 16 + (hexValue c).getD 0) 0

/-- The builtin `parseInt(text)` without a radix: leading white space, a sign, then
hexadecimal digits after `0x` or else decimal digits, as far as they go; `none` is `NaN`. -/
def parseInt (text : List Char) : Option Int :=
  let signed := stripSign (text.dropWhile jsWhitespace)
  let magnitude : Option Nat :=
    match hexBody signed.2 with
    | some body =>
      let digits := body.takeWhile (fun c => (hexValue c).isSome)
      if digits = [] then none else some (hexDigitsValue digits)
    | none =>
      let digits := signed.2.takeWhile isDecimalDigit
      if digits = [] then none else some (decimalValue digits)
  magnitude.map (fun m => if signed.1 then - (m : Int) else (m : Int))

/-- The builtin `text.padStart(3, '0')`. -/
def padStart3 (text : String) : String := String.mk (List.leftpad 3 '0' text.data)

/-- Whether the double nearest to the whole number `z` is `Infinity` or `-Infinity`:
from `2 ^ 1024 - 2 ^ 970` on in size (the two powers are written as powers of powers). -/
def overflowsWhole (z : ℤ) : Bool := decide ((2 ^ 256) ^ 4 - (2 ^ 194) ^ 5 ≤ z.natAbs)

/-- The double nearest to a whole number that does not overflow: the number itself up
to `2 ^ 53` in size, the rounded value beyond. -/
def wholeDouble (z : ℤ) : ℤ :=
  if z.natAbs ≤ 2 ^ 53 then z else ⌊roundDouble (z : ℚ)⌋

/-- Generate new vehicle ID for next trip:
`currentNum = parseInt(vehicleId.split('-')[1]) || 1`, then `VEH-` and
`String(currentNum + 1).padStart(3, '0')`.  The number read is a double (the one nearest
to the digits, `Infinity` when they overflow), and so is the sum `currentNum + 1`. -/
def nextVehicleId (vehicleId : String) : String :=
  let parsed : Option Int := ((splitChars '-' vehicleId.data)[1]?).bind parseInt
  let currentNum : Int :=
    match parsed with
    | some n => if n = 0 then 1 else n
    | none => 1
  if overflowsWhole currentNum then
    "VEH-" ++ padStart3 (if currentNum < 0 then "-Infinity" else "Infinity")
  else "VEH-" ++ padStart3 (intText (wholeDouble (wholeDouble currentNum + 1)))

/-- The id `VEH-` followed by `n` zero-padded to at least 3 digits. -/
def vehicleIdOf (n : Nat) : String := "VEH-" ++ padStart3 (toString n)

/-! ## The form handlers of the tracking page and `loadAnalytics` -/

/-- JavaScript truthiness of a number; `none` is `NaN`, the result of `parseFloat` on a
text that does not start with a number. -/
def truthyNumber : Option ℚ → Bool
  | none => false
  | some q => decide (q ≠ 0)

/-- What awaiting `fetch(...)` and then `response.json()` gives: the request fails, the
decoding of the response fails, or the decoded data. -/
inductive Reply (α : Type) where
  | requestFailed
  | decodeFailed
  | decoded (data : α)
deriving DecidableEq, Repr

/-- An `alert(...)` shown to the user. -/
inductive Alert where
  | text (message : String)
  | trackingStarted (vehicleId : String) (estimated_duration : ℚ)
deriving DecidableEq, Repr

/-- The JSON body posted to `/api/predict`. -/
structure PredictBody where
  start_lat : Option ℚ
  start_lon : Option ℚ
  end_lat : Option ℚ
  end_lon : Option ℚ
deriving DecidableEq, Repr

/-- The decoded answer of `/api/predict`. -/
structure PredictData where
  success : Bool
  distance_km : ℚ
  duration_minutes : ℚ
  avg_speed_kmh : ℚ
  eta : String
deriving DecidableEq, Repr

/-- What one click on `getPredictionBtn` does: the alerts shown, the requests sent, the
prediction written to the panel, and whether an error escapes the handler. -/
structure PredictEffects where
  alerts : List Alert
  requests : List PredictBody
  shown : Option PredictData
  escaped : Bool
deriving DecidableEq, Repr

/-- Get ML prediction (the click handler of `getPredictionBtn`).  The four arguments are
the `parseFloat` of the four fields; `panel` says whether the four output elements
exist; `reply` is what the request gives once it is sent. -/
def getPrediction (startLat startLon endLat endLon : Option ℚ) (panel : Bool)
    (reply : Reply PredictData) : PredictEffects :=
  if !truthyNumber startLat || !truthyNumber startLon || !truthyNumber endLat
      || !truthyNumber endLon then
    { alerts := [.text "Please fill in all location fields"], requests := [], shown := none
      escaped := false }
  else
    let body : PredictBody := ⟨startLat, startLon, endLat, endLon⟩
    match reply with
    | .decoded data =>
      if data.success then
        if panel then { alerts := [], requests := [body], shown := some data, escaped := false }
        else
          { alerts := [.text "Error getting prediction. Please try again."], requests := [body]
            shown := none, escaped := false }
      else { alerts := [], requests := [body], shown := none, escaped := false }
    | _ =>
      { alerts := [.text "Error getting prediction. Please try again."], requests := [body]
        shown := none, escaped := false }

/-- The JSON body posted to `/api/start_simulation`. -/
structure SimulationBody where
  vehicle_id : String
  start_lat : Option ℚ
  start_lon : Option ℚ
  end_lat : Option ℚ
  end_lon : Option ℚ
deriving DecidableEq, Repr

/-- The decoded answer of `/api/start_simulation`. -/
structure SimulationData where
  success : Bool
  estimated_duration : ℚ
deriving DecidableEq, Repr

/-- What one submit of `tripForm` does: the alerts shown, the requests sent, the value
of the `vehicleId` field afterwards, and whether an error escapes the handler. -/
structure SubmitEffects where
  alerts : List Alert
  requests : List SimulationBody
  vehicleIdField : String
  escaped : Bool
deriving DecidableEq, Repr

/-- Start tracking (the submit handler of `tripForm`). -/
def startTracking (vehicleId : String) (startLat startLon endLat endLon : Option ℚ)
    (reply : Reply SimulationData) : SubmitEffects :=
  if vehicleId = "" || !truthyNumber startLat || !truthyNumber startLon
      || !truthyNumber endLat || !truthyNumber endLon then
    { alerts := [.text "Please fill in all fields"], requests := [], vehicleIdField := vehicleId
      escaped := false }
  else
    let body : SimulationBody := ⟨vehicleId, startLat, startLon, endLat, endLon⟩
    match reply with
    | .decoded data =>
      if data.success then
        { alerts := [.trackingStarted vehicleId data.estimated_duration], requests := [body]
          vehicleIdField := nextVehicleId vehicleId, escaped := false }
      else { alerts := [], requests := [body], vehicleIdField := vehicleId, escaped := false }
    | _ =>
      { alerts := [.text "Error starting tracking. Please try again."], requests := [body]
        vehicleIdField := vehicleId, escaped := false }

/-- The decoded answer of `/api/analytics`, as far as the renderers read it. -/
structure AnalyticsData where
  trips : Option (List Trip)
  summary : Summary
deriving DecidableEq, Repr

/-- What one call of `loadAnalytics` does: the alerts shown, the number of requests sent,
the trips kept in `analyticsTrips`, the page, whether the charts were drawn, and
whether an error escapes the call (the promise it returns is rejected). -/
structure LoadEffects where
  alerts : List Alert
  requests : Nat
  analyticsTrips : List Trip
  dom : AnalyticsDom
  chartsDrawn : Bool
  escaped : Bool
deriving DecidableEq, Repr

/-- The function `loadAnalytics`: it awaits the request and the decoding outside of any
`try`, then renders the statistics, the trip table and the charts. -/
def loadAnalytics (analyticsTrips : List Trip) (dom : AnalyticsDom)
    (reply : Reply AnalyticsData) : LoadEffects :=
  match reply with
  | .decoded data =>
    let trips := data.trips.getD []
    let stats := updateStatistics data.summary dom
    match stats.thrown with
    | some _ =>
      { alerts := [], requests := 1, analyticsTrips := trips, dom := stats.dom
        chartsDrawn := false, escaped := true }
    | none =>
      let table := populateTripTable (some trips) stats.dom
      { alerts := [], requests := 1, analyticsTrips := trips, dom := table.dom
        chartsDrawn := true, escaped := false }
  | _ =>
    { alerts := [], requests := 1, analyticsTrips := analyticsTrips, dom := dom
      chartsDrawn := false, escaped := true }

/-- An analytics page that has every target element. -/
def fullAnalyticsDom : AnalyticsDom :=
  { tripTableBody := some .noData, totalTrips := some 0, totalKm := some 0, totalTime := some 0
    avgSpeedStat := some 0 }

/-! ## The voice assistant (`static/js/voice-assistant.js`) -/

/-- Matching a literal at the start of a text: the rest of the text after it. -/
def startsWith : List Char → List Char → Option (List Char)
  | [], text => some text
  | _ :: _, [] => none
  | p :: ps, c :: cs => if p = c then startsWith ps cs else none

/-- The builtin `text.includes(part)` on character lists. -/
def includesChars (part : List Char) : List Char → Bool
  | [] => (startsWith part []).isSome
  | c :: rest => (startsWith part (c :: rest)).isSome || includesChars part rest

/-- The builtin `text.includes(part)`. -/
def includes (text part : String) : Bool := includesChars part.data text.data

/-- The builtin `text.trim()` on character lists. -/
def trim (text : List Char) : List Char :=
  ((text.dropWhile jsWhitespace).reverse.dropWhile jsWhitespace).reverse

/-- A regular expression `[p]+` (greedy) followed by the rest `next` of the pattern: the
longest run is tried first, then shorter ones. -/
def plusGreedy {R : Type} (p : Char → Bool) (next : List Char → Option R) :
    List Char → Option R
  | [] => none
  | c :: rest =>
    if p c then
      match plusGreedy p next rest with
      | some r => some r
      | none => next rest
    else none

/-- A capturing group `([p]+?)` (lazy) followed by the rest `next` of the pattern, which
receives the captured text: the shortest run is tried first, then longer ones. -/
def plusLazyCapture {R : Type} (p : Char → Bool) (next : List Char → List Char → Option R)
    (captured : List Char) : List Char → Option R
  | [] => none
  | c :: rest =>
    if p c then
      match next (captured ++ [c]) rest with
      | some r => some r
      | none => plusLazyCapture p next (captured ++ [c]) rest
    else none

/-- A capturing group `([p]+)` (greedy) at the end of a pattern: the longest run. -/
def plusGreedyCapture (p : Char → Bool) (captured : List Char) : List Char → Option (List Char)
  | [] => if captured = [] then none else some captured
  | c :: rest =>
    if p c then plusGreedyCapture p (captured ++ [c]) rest
    else if captured = [] then none else some captured

/-- The search of `text.match(regex)`: the leftmost position at which the pattern
matches. -/
def regexSearch {R : Type} (pattern : List Char → Option R) : List Char → Option R
  | [] => pattern []
  | c :: rest =>
    match pattern (c :: rest) with
    | some r => some r
    | none => regexSearch pattern rest

/-- The character class `[a-z\s]`. -/
def lowerOrSpace (c : Char) : Bool := (97 ≤ c.toNat && c.toNat ≤ 122) || jsWhitespace c

/-- The first group of `command.match(/from\s+([a-z\s]+?)\s+to/)`. -/
def fromMatch (command : List Char) : Option (List Char) :=
  regexSearch
    (fun text =>
      (startsWith "from".data text).bind
        (plusGreedy jsWhitespace
          (plusLazyCapture lowerOrSpace
            (fun captured rest =>
              plusGreedy jsWhitespace
                (fun rest2 => (startsWith "to".data rest2).map (fun _ => captured)) rest)
            [])))
    command

/-- The first group of `command.match(/to\s+([a-z\s]+?)(?:\s|$)/)`. -/
def toMatch (command : List Char) : Option (List Char) :=
  regexSearch
    (fun text =>
      (startsWith "to".data text).bind
        (plusGreedy jsWhitespace
          (plusLazyCapture lowerOrSpace
            (fun captured rest =>
              match rest with
              | [] => some captured
              | c :: _ => if jsWhitespace c then some captured else none)
            [])))
    command

/-- The character class `[a-z0-9\-]` under the `i` flag. -/
def vehicleNumberChar (c : Char) : Bool :=
  (97 ≤ c.toNat && c.toNat ≤ 122) || (65 ≤ c.toNat && c.toNat ≤ 90) || isDecimalDigit c
    || decide (c = '-')

/-- Matching a lower-case literal at the start of a text under the `i` flag. -/
def startsWithNoCase : List Char → List Char → Option (List Char)
  | [], text => some text
  | _ :: _, [] => none
  | p :: ps, c :: cs => if p = c.toLower then startsWithNoCase ps cs else none

/-- The first group of `command.match(/track vehicle\s+([a-z0-9\-]+)/i)`. -/
def vehicleMatch (command : List Char) : Option (List Char) :=
  regexSearch
    (fun text =>
      (startsWithNoCase "track vehicle".data text).bind
        (plusGreedy jsWhitespace (plusGreedyCapture vehicleNumberChar [])))
    command

/-- The replacement `text.replace(/\s+/g, '-')`: `inRun` says that the character
before was white space. -/
def replaceSpaces (inRun : Bool) : List Char → List Char
  | [] => []
  | c :: rest =>
    if jsWhitespace c then
      if inRun then replaceSpaces true rest else '-' :: replaceSpaces true rest
    else c :: replaceSpaces false rest

/-- What a voice command does on the page.  `bookRide` records the call of the helper of
that name with its two arguments; its body is not unfolded. -/
inductive VoiceAction where
  | speak (text : String)
  | bookRide (pickup dropoff : String)
  | call (function : String) (argument : Option String)
  | click (target : String)
  | scrollTo (target : String)
deriving DecidableEq, Repr

/-- The page as the voice commands see it: the global functions that exist, the ids
and selectors that find an element, and whether the online toggle has class `active`. -/
structure VoicePage where
  functions : List String
  elements : List String
  toggleActive : Bool
deriving DecidableEq, Repr

/-- The result of processing a command: the actions in order, and the error raised. -/
structure VoiceOutcome where
  actions : List VoiceAction
  thrown : Option JsError
deriving DecidableEq, Repr

/-- The reply to a command that no branch recognises. -/
def notUnderstood : String :=
  "I didn't understand that command. Say help for available commands."

/-- Customer Commands. -/
def processCustomerCommand (page : VoicePage) (command : String) : VoiceOutcome :=
  if includes command "book ride" || includes command "book a ride" then
    match fromMatch command.data, toMatch command.data with
    | some pickup, some dropoff =>
      ⟨[.bookRide (String.mk (trim pickup)) (String.mk (trim dropoff))], none⟩
    | _, _ => ⟨[.speak "Please specify both pickup and dropoff locations"], none⟩
  else if includes command "show nearby" || includes command "nearby vehicles" then
    ⟨.speak "Showing nearby available vehicles" ::
      (if page.functions.contains "loadNearbyVehicles" then [.call "loadNearbyVehicles" none]
       else []), none⟩
  else if includes command "cancel" then
    ⟨.speak "Canceling your ride" ::
      (if page.elements.contains "cancelBtn" then [.click "cancelBtn"] else []), none⟩
  else if includes command "help" then
    ⟨[.speak
      "You can say: Book ride from location to location, Show nearby vehicles, Cancel booking"],
      none⟩
  else ⟨[.speak notUnderstood], none⟩

/-- Driver Commands. -/
def processDriverCommand (page : VoicePage) (command : String) : VoiceOutcome :=
  if includes command "accept ride" || includes command "accept" then
    ⟨.speak "Accepting the ride" ::
      (if page.elements.contains ".accept-btn" then [.click ".accept-btn"]
       else [.speak "No pending ride to accept"]), none⟩
  else if includes command "reject ride" || includes command "reject" then
    ⟨.speak "Rejecting the ride" ::
      (if page.elements.contains ".reject-btn" then [.click ".reject-btn"] else []), none⟩
  else if includes command "start trip" || includes command "start ride" then
    ⟨.speak "Starting the trip" ::
      (if page.elements.contains "startRideBtn" then [.click "startRideBtn"] else []), none⟩
  else if includes command "complete trip" || includes command "complete ride" then
    ⟨.speak "Completing the trip" ::
      (if page.elements.contains "completeRideBtn" then [.click "completeRideBtn"] else []),
      none⟩
  else if includes command "go online" then
    ⟨.speak "Going online" ::
      (if page.elements.contains "onlineToggle" && !page.toggleActive then
        [.click "onlineToggle"] else []), none⟩
  else if includes command "go offline" then
    ⟨.speak "Going offline" ::
      (if page.elements.contains "onlineToggle" && page.toggleActive then
        [.click "onlineToggle"] else []), none⟩
  else if includes command "help" then
    ⟨[.speak
      "You can say: Accept ride, Reject ride, Start trip, Complete trip, Go online, Go offline"],
      none⟩
  else ⟨[.speak notUnderstood], none⟩

/-- The click on a city filter: the lookup is not guarded, a missing element raises. -/
def clickCity (page : VoicePage) (spoken selector : String) : VoiceOutcome :=
  if page.elements.contains selector then ⟨[.speak spoken, .click selector], none⟩
  else ⟨[.speak spoken], some (.typeError selector)⟩

/-- Admin Commands. -/
def processAdminCommand (page : VoicePage) (command : String) : VoiceOutcome :=
  if includes command "track vehicle" then
    match vehicleMatch command.data with
    | some number =>
      let vehicleNumber := String.mk (replaceSpaces false (number.map Char.toUpper))
      ⟨.speak ("Tracking vehicle " ++ vehicleNumber) ::
        (if page.functions.contains "trackVehicle" then
          [.call "trackVehicle" (some vehicleNumber)] else []), none⟩
    | none => ⟨[.speak "Please specify the vehicle number"], none⟩
  else if includes command "show analytics" || includes command "analytics" then
    if page.elements.contains ".analytics-grid" then
      ⟨[.speak "Showing analytics dashboard", .scrollTo ".analytics-grid"], none⟩
    else ⟨[.speak "Showing analytics dashboard"], some (.typeError ".analytics-grid")⟩
  else if includes command "filter" && includes command "bangalore" then
    clickCity page "Filtering by Bangalore" "[data-city=\"bangalore\"]"
  else if includes command "filter" && includes command "porto" then
    clickCity page "Filtering by Porto" "[data-city=\"porto\"]"
  else if includes command "show all"
      || (includes command "filter" && includes command "all") then
    clickCity page "Showing all cities" "[data-city=\"all\"]"
  else if includes command "refresh" then
    ⟨.speak "Refreshing dashboard data" ::
      ((if page.functions.contains "loadDashboardData" then [.call "loadDashboardData" none]
        else []) ++
       (if page.functions.contains "updateMap" then [.call "updateMap" none] else [])), none⟩
  else if includes command "help" then
    ⟨[.speak
      ("You can say: Track vehicle number, Show analytics, Filter Bangalore, Filter Porto, "
        ++ "Show all, Refresh")], none⟩
  else ⟨[.speak notUnderstood], none⟩

/-- The method `processCommand`: the switch on the role of the assistant. -/
def processCommand (role : String) (page : VoicePage) (command : String) : VoiceOutcome :=
  if role = "customer" then processCustomerCommand page command
  else if role = "driver" then processDriverCommand page command
  else if role = "admin" then processAdminCommand page command
  else ⟨[.speak "Unknown role"], none⟩

/-- The keywords of the command set of a role: the texts its branches look for. -/
def keywords (role : String) : List String :=
  if role = "customer" then
    ["book ride", "book a ride", "show nearby", "nearby vehicles", "cancel", "help"]
  else if role = "driver" then
    ["accept ride", "accept", "reject ride", "reject", "start trip", "start ride",
     "complete trip", "complete ride", "go online", "go offline", "help"]
  else if role = "admin" then
    ["track vehicle", "show analytics", "analytics", "filter", "show all", "refresh", "help"]
  else []

/-- A page with none of the optional functions and elements. -/
def emptyPage : VoicePage := { functions := [], elements := [], toggleActive := false }

/-! ## Specification-side definitions and concrete inputs -/

/-- The length in kilometres of a path: the sum of the distances between consecutive
points (`distanceTo` in metres, divided by 1000). -/
def pathLength (dist : LatLng → LatLng → ℚ) (path : List LatLng) : ℚ :=
  ((path.zip path.tail).map (fun ab => dist ab.1 ab.2 / 1000)).sum

/-- The sum of the path lengths over every path currently in `vehiclePolylines`. -/
def sumOfPathLengths (dist : LatLng → LatLng → ℚ) (s : State) : ℚ :=
  ((jsValues s.vehiclePolylines).map (pathLength dist)).sum

/-- The number of updates in a sequence that carry a given vehicle id. -/
def updatesFor (v : String) (updates : List VehicleUpdate) : Nat :=
  updates.countP (fun u => decide (u.vehicle_id = v))

/-- A page that has all three target elements, with their initial content. -/
def fullDom : Dom :=
  { activeVehicles := some .emptyState, totalVehicles := some 0, totalDistance := some 0 }

/-- A page without any of the target elements. -/
def bareDom : Dom :=
  { activeVehicles := none, totalVehicles := none, totalDistance := none }

/-- A distance function for concrete runs: every two points are a metre apart. -/
def unitDist : LatLng → LatLng → ℚ := fun _ _ => 1

/-- The update of the example: vehicle V1 at (10, 20), speed 5, progress 50. -/
def updateV1 (distance_covered elapsed_time : ℚ) : VehicleUpdate :=
  { vehicle_id := "V1", latitude := 10, longitude := 20, speed := 5, progress := 50
    distance_covered := distance_covered, elapsed_time := elapsed_time }

/-- An update that carries the given vehicle id, at (10, 20). -/
def updateNamed (vehicle_id : String) : VehicleUpdate :=
  { vehicle_id := vehicle_id, latitude := 10, longitude := 20, speed := 5, progress := 50
    distance_covered := 0, elapsed_time := 0 }

/-- A later update for V1, at another position. -/
def updateV3 : VehicleUpdate :=
  { vehicle_id := "V1", latitude := 12, longitude := 22, speed := 6, progress := 75
    distance_covered := 3, elapsed_time := 120 }

/-- An update for a second vehicle. -/
def updateV2 : VehicleUpdate :=
  { vehicle_id := "V2", latitude := 11, longitude := 21, speed := 7, progress := 30
    distance_covered := 2, elapsed_time := 90 }

/-- An analytics page without any of the target elements. -/
def bareAnalyticsDom : AnalyticsDom :=
  { tripTableBody := none, totalTrips := none, totalKm := none, totalTime := none
    avgSpeedStat := none }

/-- The polyline table after a `gps_update`, whatever the DOM looks like. -/
def polylinesAfterUpdate (data : VehicleUpdate) (s : State) : List (String × List LatLng) :=
  if rejectsUpdate data s then s.vehiclePolylines
  else
    match jsGet data.vehicle_id s.vehicleMarkers with
    | none => jsSet data.vehicle_id [⟨data.latitude, data.longitude⟩] s.vehiclePolylines
    | some _ =>
      match jsGet data.vehicle_id s.vehiclePolylines with
      | none => s.vehiclePolylines
      | some path =>
        jsSet data.vehicle_id (path ++ [⟨data.latitude, data.longitude⟩]) s.vehiclePolylines

/-- The marker table after a `gps_update`, whatever the DOM looks like. -/
def markersAfterUpdate (data : VehicleUpdate) (s : State) : List (String × Marker) :=
  if rejectsUpdate data s then s.vehicleMarkers
  else
    match jsGet data.vehicle_id s.vehicleMarkers with
    | none =>
      jsSet data.vehicle_id
        ⟨⟨data.latitude, data.longitude⟩, data.vehicle_id, popupContent data⟩ s.vehicleMarkers
    | some marker =>
      jsSet data.vehicle_id
        { marker with latLng := ⟨data.latitude, data.longitude⟩, popup := popupContent data }
        s.vehicleMarkers

/-- Markers and path overlays go together: an id has a marker exactly when it has a
path overlay. -/
def Consistent (s : State) : Prop :=
  ∀ k : String, (jsGet k s.vehicleMarkers).isSome = (jsGet k s.vehiclePolylines).isSome

/-- The number of points on the path of a vehicle, 0 when it has no path overlay. -/
def pathPoints (v : String) (s : State) : Nat :=
  ((jsGet v s.vehiclePolylines).getD []).length

/-- Once an id has lost its marker it has no path overlay and is not in the active
set either. -/
def GoneTogether (v : String) (s : State) : Prop :=
  jsGet v s.vehicleMarkers = none →
    jsGet v s.vehiclePolylines = none ∧ some v ∉ s.activeVehicles

/-- Three updates, two of them for V1. -/
def sampleUpdates : List VehicleUpdate :=
  [updateV1 0 0, updateV2, updateV1 1 60]

/-- The state after the first update for V1 on a full page. -/
def trackedV1 : State :=
  run unitDist (initialState fullDom) [Event.gps_update (updateV1 0 0)]

/-- An update for V1, then its completion event: the grace period. -/
def graceEvents : List Event :=
  [Event.gps_update (updateV1 0 0), Event.vehicle_completed "V1"]

/-- An update for V1, its completion event, and the removal timer firing. -/
def removalEvents : List Event :=
  [Event.gps_update (updateV1 0 0), Event.vehicle_completed "V1", Event.timeout 0]

/-- An update for V1, then a confirmed clear-all. -/
def clearEvents : List Event :=
  [Event.gps_update (updateV1 0 0), Event.clearMapClick true]

/-- A grace period of `v`: a run of events in which no clear-all is confirmed and no
pending removal of `v` fires. -/
def GracePeriod (dist : LatLng → LatLng → ℚ) (v : String) : State → List Event → Prop
  | _, [] => True
  | s, e :: es =>
    e ≠ Event.clearMapClick true ∧
    (∀ k, e = Event.timeout k → (s.timers[k]?).map Timer.vehicleId ≠ some v) ∧
    GracePeriod dist v (step dist s e) es

/-- Every id with a marker is a member of the active set. -/
def ActiveCovers (s : State) : Prop :=
  ∀ k : String, (jsGet k s.vehicleMarkers).isSome → some k ∈ s.activeVehicles

/-- The sidebar entry the spec describes for a member of the active set when an update
for `v` with progress `progress` is rendered. -/
def expectedItem (v : String) (progress : ℚ) (vid : Option String) : VehicleItem :=
  { vid := vidText vid, status := "Active", width := if vid = some v then progress else 0 }

/-- A run of four events touching two vehicles. -/
def mixedEvents : List Event :=
  [Event.gps_update (updateV1 0 0), Event.gps_update updateV2,
   Event.vehicle_completed "V1", Event.timeout 0]

/-- An update whose vehicle id is the markup of a `vehicle-item` block. -/
def markupUpdate : VehicleUpdate := updateNamed "<div class=\"vehicle-item\"></div>"

/-! ## Table and set lemmas -/

theorem jsGet_jsSet_self {α : Type} (k : String) (a : α) (t : List (String × α)) :
    jsGet k (jsSet k a t) = some a := by
  induction t with
  | nil => simp [jsSet, jsGet]
  | cons hd tl ih =>
    obtain ⟨k1, b⟩ := hd
    by_cases h : k1 = k
    · simp [jsSet, jsGet, h]
    · simp [jsSet, jsGet, h, ih]

theorem jsGet_jsSet_ne {α : Type} (k j : String) (a : α) (t : List (String × α))
    (hne : j ≠ k) : jsGet j (jsSet k a t) = jsGet j t := by
  induction t with
  | nil =>
    have : ¬ k = j := fun h => hne h.symm
    simp [jsSet, jsGet, this]
  | cons hd tl ih =>
    obtain ⟨k1, b⟩ := hd
    by_cases h : k1 = k
    · have hj : ¬ k = j := fun h2 => hne h2.symm
      simp [jsSet, jsGet, h, hj]
    · by_cases h2 : k1 = j
      · subst h2
        simp [jsSet, jsGet, h]
      · simp [jsSet, jsGet, h, h2, ih]

theorem jsSet_jsSet {α : Type} (k : String) (a b : α) (t : List (String × α)) :
    jsSet k b (jsSet k a t) = jsSet k b t := by
  induction t with
  | nil => simp [jsSet]
  | cons hd tl ih =>
    obtain ⟨k1, c⟩ := hd
    by_cases h : k1 = k
    · simp [jsSet, h]
    · simp [jsSet, h, ih]

theorem jsGet_jsDelete_self {α : Type} (k : String) (t : List (String × α)) :
    jsGet k (jsDelete k t) = none := by
  induction t with
  | nil => simp [jsDelete, jsGet]
  | cons hd tl ih =>
    obtain ⟨k1, c⟩ := hd
    by_cases h : k1 = k
    · simp [jsDelete, h, ih]
    · simp [jsDelete, jsGet, h, ih]

theorem jsGet_jsDelete_ne {α : Type} (k j : String) (t : List (String × α))
    (hne : j ≠ k) : jsGet j (jsDelete k t) = jsGet j t := by
  induction t with
  | nil => simp [jsDelete, jsGet]
  | cons hd tl ih =>
    obtain ⟨k1, c⟩ := hd
    by_cases h : k1 = k
    · have hj : ¬ k = j := fun h2 => hne h2.symm
      simp [jsDelete, jsGet, h, hj, ih]
    · by_cases h2 : k1 = j
      · subst h2
        simp [jsDelete, jsGet, h]
      · simp [jsDelete, jsGet, h, h2, ih]

theorem mem_setAdd_self (x : Option String) (set : List (Option String)) :
    x ∈ setAdd x set := by
  unfold setAdd
  split <;> simp_all

theorem mem_setAdd_of_mem (x y : Option String) (set : List (Option String))
    (h : y ∈ set) : y ∈ setAdd x set := by
  unfold setAdd
  split <;> simp_all

theorem setAdd_ne_nil (x : Option String) (set : List (Option String)) :
    setAdd x set ≠ [] := by
  intro h
  have := mem_setAdd_self x set
  rw [h] at this
  simp at this

theorem setAdd_of_mem (x : Option String) (set : List (Option String)) (h : x ∈ set) :
    setAdd x set = set := by
  simp [setAdd, h]

theorem not_mem_setDelete (x : Option String) (set : List (Option String)) :
    x ∉ setDelete x set := by
  simp [setDelete]

/-! ## Frame lemmas: which part of the state each operation touches -/

theorem andThen_state_eq (o : Outcome) (f : State → Outcome) :
    (o.andThen f).state = o.state ∨ (o.thrown = none ∧ (o.andThen f).state = (f o.state).state) := by
  unfold Outcome.andThen
  cases h : o.thrown with
  | none => right; simp
  | some e => left; simp

theorem updateActiveVehiclesList_tables (vehicleId : Option String) (data : Option VehicleUpdate)
    (s : State) :
    (updateActiveVehiclesList vehicleId data s).state.vehicleMarkers = s.vehicleMarkers ∧
    (updateActiveVehiclesList vehicleId data s).state.vehiclePolylines = s.vehiclePolylines ∧
    (updateActiveVehiclesList vehicleId data s).state.activeVehicles
      = setAdd vehicleId s.activeVehicles ∧
    (updateActiveVehiclesList vehicleId data s).state.timers = s.timers := by
  unfold updateActiveVehiclesList
  simp only
  split <;> split <;> simp

theorem updateMetrics_tables (dist : LatLng → LatLng → ℚ) (s : State) :
    (updateMetrics dist s).state.vehicleMarkers = s.vehicleMarkers ∧
    (updateMetrics dist s).state.vehiclePolylines = s.vehiclePolylines ∧
    (updateMetrics dist s).state.activeVehicles = s.activeVehicles ∧
    (updateMetrics dist s).state.timers = s.timers := by
  unfold updateMetrics
  split
  · simp
  · simp only
    split <;> simp

/-- Rendering the list and then the metrics: the tables are those of the input, the
active set has gained the argument. -/
theorem render_tables (dist : LatLng → LatLng → ℚ) (vehicleId : Option String)
    (data : Option VehicleUpdate) (s : State) :
    ((updateActiveVehiclesList vehicleId data s).andThen (updateMetrics dist)).state.vehicleMarkers
      = s.vehicleMarkers ∧
    ((updateActiveVehiclesList vehicleId data s).andThen (updateMetrics dist)).state.vehiclePolylines
      = s.vehiclePolylines ∧
    ((updateActiveVehiclesList vehicleId data s).andThen (updateMetrics dist)).state.activeVehicles
      = setAdd vehicleId s.activeVehicles ∧
    ((updateActiveVehiclesList vehicleId data s).andThen (updateMetrics dist)).state.timers
      = s.timers := by
  obtain ⟨h1, h2, h3, h4⟩ := updateActiveVehiclesList_tables vehicleId data s
  obtain ⟨g1, g2, g3, g4⟩ :=
    updateMetrics_tables dist (updateActiveVehiclesList vehicleId data s).state
  rcases andThen_state_eq (updateActiveVehiclesList vehicleId data s) (updateMetrics dist) with
    h | ⟨_, h⟩
  · rw [h]; exact ⟨h1, h2, h3, h4⟩
  · rw [h]; exact ⟨g1.trans h1, g2.trans h2, g3.trans h3, g4.trans h4⟩

theorem updateVehicleOnMap_tables (dist : LatLng → LatLng → ℚ) (data : VehicleUpdate)
    (s : State) :
    (updateVehicleOnMap dist data s).state.vehicleMarkers = markersAfterUpdate data s ∧
    (updateVehicleOnMap dist data s).state.vehiclePolylines = polylinesAfterUpdate data s ∧
    (updateVehicleOnMap dist data s).state.timers = s.timers := by
  unfold updateVehicleOnMap markersAfterUpdate polylinesAfterUpdate
  cases hr : rejectsUpdate data s with
  | true => simp
  | false =>
    simp only [Bool.false_eq_true, if_false]
    cases hm : jsGet data.vehicle_id s.vehicleMarkers with
    | none =>
      simp only [hm, jsGet_jsSet_self]
      refine ⟨?_, ?_, ?_⟩
      · rw [(render_tables dist _ _ _).1]
      · rw [(render_tables dist _ _ _).2.1]; simp [jsSet_jsSet]
      · rw [(render_tables dist _ _ _).2.2.2]
    | some marker =>
      simp only [hm]
      cases hp : jsGet data.vehicle_id s.vehiclePolylines with
      | none => simp
      | some path =>
        simp only [hp]
        refine ⟨?_, ?_, ?_⟩
        · rw [(render_tables dist _ _ _).1]
        · rw [(render_tables dist _ _ _).2.1]
        · rw [(render_tables dist _ _ _).2.2.2]

theorem updateVehicleOnMap_rejected (dist : LatLng → LatLng → ℚ) (data : VehicleUpdate)
    (s : State) (hr : rejectsUpdate data s = true) :
    updateVehicleOnMap dist data s = ⟨s, some (.typeError "setLatLng")⟩ := by
  unfold updateVehicleOnMap
  simp [hr]

theorem rejectsUpdate_eq_false_of_marker (data : VehicleUpdate) (s : State)
    (h : (jsGet data.vehicle_id s.vehicleMarkers).isSome) : rejectsUpdate data s = false := by
  unfold rejectsUpdate
  cases hm : jsGet data.vehicle_id s.vehicleMarkers with
  | none => rw [hm] at h; simp at h
  | some m => simp

theorem rejectsUpdate_eq_false_of_not_inherited (data : VehicleUpdate) (s : State)
    (h : inherited data.vehicle_id = false) : rejectsUpdate data s = false := by
  unfold rejectsUpdate
  simp [h]

/-! ## Paths under `gps_update` -/

theorem run_cons (dist : LatLng → LatLng → ℚ) (s : State) (e : Event) (es : List Event) :
    run dist s (e :: es) = run dist (step dist s e) es := rfl

theorem run_append (dist : LatLng → LatLng → ℚ) (s : State) (es fs : List Event) :
    run dist s (es ++ fs) = run dist (run dist s es) fs := by
  simp [run, List.foldl_append]

theorem jsGet_polylinesAfterUpdate (data : VehicleUpdate) (s : State) (hs : Consistent s)
    (hacc : rejectsUpdate data s = false) (v : String) :
    jsGet v (polylinesAfterUpdate data s) =
      if data.vehicle_id = v then
        some ((jsGet v s.vehiclePolylines).getD [] ++ [⟨data.latitude, data.longitude⟩])
      else jsGet v s.vehiclePolylines := by
  have hk := hs data.vehicle_id
  unfold polylinesAfterUpdate
  simp only [hacc, Bool.false_eq_true, if_false]
  by_cases hv : data.vehicle_id = v
  · subst hv
    simp only [if_true]
    cases hm : jsGet data.vehicle_id s.vehicleMarkers with
    | none =>
      rw [hm] at hk
      cases hp : jsGet data.vehicle_id s.vehiclePolylines with
      | none => simp [jsGet_jsSet_self]
      | some path => rw [hp] at hk; simp at hk
    | some marker =>
      rw [hm] at hk
      cases hp : jsGet data.vehicle_id s.vehiclePolylines with
      | none => rw [hp] at hk; simp at hk
      | some path => simp [jsGet_jsSet_self]
  · have hne : v ≠ data.vehicle_id := fun h => hv h.symm
    simp only [hv, if_false]
    cases hm : jsGet data.vehicle_id s.vehicleMarkers with
    | none => simp [jsGet_jsSet_ne _ _ _ _ hne]
    | some marker =>
      cases hp : jsGet data.vehicle_id s.vehiclePolylines with
      | none => simp
      | some path => simp [jsGet_jsSet_ne _ _ _ _ hne]

theorem isSome_jsGet_markersAfterUpdate (data : VehicleUpdate) (s : State)
    (hacc : rejectsUpdate data s = false) (v : String) :
    (jsGet v (markersAfterUpdate data s)).isSome =
      (decide (data.vehicle_id = v) || (jsGet v s.vehicleMarkers).isSome) := by
  unfold markersAfterUpdate
  simp only [hacc, Bool.false_eq_true, if_false]
  by_cases hv : data.vehicle_id = v
  · subst hv
    cases hm : jsGet data.vehicle_id s.vehicleMarkers <;> simp [jsGet_jsSet_self]
  · have hne : v ≠ data.vehicle_id := fun h => hv h.symm
    cases hm : jsGet data.vehicle_id s.vehicleMarkers <;> simp [jsGet_jsSet_ne _ _ _ _ hne, hv]

theorem updateVehicleOnMap_consistent (dist : LatLng → LatLng → ℚ) (data : VehicleUpdate)
    (s : State) (hs : Consistent s) : Consistent (updateVehicleOnMap dist data s).state := by
  cases hr : rejectsUpdate data s with
  | true => rw [updateVehicleOnMap_rejected dist data s hr]; exact hs
  | false =>
    intro k
    obtain ⟨h1, h2, _⟩ := updateVehicleOnMap_tables dist data s
    rw [h1, h2, isSome_jsGet_markersAfterUpdate data s hr,
      jsGet_polylinesAfterUpdate data s hs hr]
    by_cases hv : data.vehicle_id = k
    · simp [hv]
    · simp [hv, hs k]

theorem pathPoints_updateVehicleOnMap (dist : LatLng → LatLng → ℚ) (data : VehicleUpdate)
    (s : State) (hs : Consistent s) (v : String) (hv : inherited v = false) :
    pathPoints v (updateVehicleOnMap dist data s).state =
      pathPoints v s + (if data.vehicle_id = v then 1 else 0) := by
  cases hr : rejectsUpdate data s with
  | true =>
    have hne : ¬ data.vehicle_id = v := by
      intro h
      rw [rejectsUpdate_eq_false_of_not_inherited data s (by rw [h]; exact hv)] at hr
      cases hr
    rw [updateVehicleOnMap_rejected dist data s hr]
    simp [hne]
  | false =>
    unfold pathPoints
    rw [(updateVehicleOnMap_tables dist data s).2.1, jsGet_polylinesAfterUpdate data s hs hr]
    by_cases hv2 : data.vehicle_id = v <;> simp [hv2]

theorem jsGet_polylines_updateVehicleOnMap_isSome (dist : LatLng → LatLng → ℚ)
    (data : VehicleUpdate) (s : State) (hs : Consistent s) (k : String)
    (hk : (jsGet k s.vehiclePolylines).isSome) :
    (jsGet k (updateVehicleOnMap dist data s).state.vehiclePolylines).isSome := by
  cases hr : rejectsUpdate data s with
  | true => rw [updateVehicleOnMap_rejected dist data s hr]; exact hk
  | false =>
    rw [(updateVehicleOnMap_tables dist data s).2.1, jsGet_polylinesAfterUpdate data s hs hr]
    by_cases hv : data.vehicle_id = k <;> simp [hv, hk]

theorem consistent_initialState (dom : Dom) : Consistent (initialState dom) := by
  intro k
  simp [initialState, jsGet]

theorem run_gps_updates (dist : LatLng → LatLng → ℚ) (v : String) (hv : inherited v = false)
    (updates : List VehicleUpdate) :
    ∀ s : State, Consistent s →
      Consistent (run dist s (updates.map Event.gps_update)) ∧
      pathPoints v (run dist s (updates.map Event.gps_update)) =
        pathPoints v s + updatesFor v updates ∧
      (∀ k, (jsGet k s.vehiclePolylines).isSome →
        (jsGet k (run dist s (updates.map Event.gps_update)).vehiclePolylines).isSome) ∧
      (1 ≤ updatesFor v updates →
        (jsGet v (run dist s (updates.map Event.gps_update)).vehiclePolylines).isSome) := by
  induction updates with
  | nil =>
    intro s hs
    simp [run, updatesFor]
    exact hs
  | cons u us ih =>
    intro s hs
    have hc := updateVehicleOnMap_consistent dist u s hs
    obtain ⟨i1, i2, i3, i4⟩ := ih (updateVehicleOnMap dist u s).state hc
    have hkeep := jsGet_polylines_updateVehicleOnMap_isSome dist u s hs
    simp only [List.map_cons, run_cons, step]
    refine ⟨i1, ?_, fun k hk => i3 k (hkeep k hk), ?_⟩
    · rw [i2, pathPoints_updateVehicleOnMap dist u s hs v hv]
      unfold updatesFor
      by_cases huv : u.vehicle_id = v
      · simp [huv, List.countP_cons]; omega
      · simp [huv, List.countP_cons]
    · intro hcount
      by_cases huv : u.vehicle_id = v
      · apply i3
        have hacc := rejectsUpdate_eq_false_of_not_inherited u s (by rw [huv]; exact hv)
        rw [(updateVehicleOnMap_tables dist u s).2.1, jsGet_polylinesAfterUpdate u s hs hacc]
        simp [huv]
      · apply i4
        unfold updatesFor at hcount ⊢
        simpa [List.countP_cons, huv] using hcount

/-- C1, the claim as stated fails for an id that names a property of `Object.prototype`:
from the empty state the update for the id `constructor` raises a `TypeError`, and
afterwards `vehiclePolylines` has no path for that id, and `vehicleMarkers` no marker. -/
theorem no_path_for_inherited_name :
    updatesFor "constructor" [updateNamed "constructor"] = 1 ∧
    (updateVehicleOnMap unitDist (updateNamed "constructor") (initialState fullDom)).thrown
      = some (JsError.typeError "setLatLng") ∧
    jsGet "constructor" (run unitDist (initialState fullDom)
      ([updateNamed "constructor"].map Event.gps_update)).vehiclePolylines = none ∧
    jsGet "constructor" (run unitDist (initialState fullDom)
      ([updateNamed "constructor"].map Event.gps_update)).vehicleMarkers = none := by
  decide

/-- C1 as amended: for every vehicle id `v` that is not the name of a property inherited
from `Object.prototype`, from the empty state, after any sequence of `gps_update` events
(for any mix of vehicle ids) that carries `n ≥ 1` updates for `v`, `vehiclePolylines[v]`
exists and its path has exactly `n` points. -/
theorem path_length_eq_update_count (dist : LatLng → LatLng → ℚ) (dom : Dom) (v : String)
    (hv : v ∉ objectPrototypeNames)
    (updates : List VehicleUpdate) (hn : 1 ≤ updatesFor v updates) :
    (jsGet v (run dist (initialState dom) (updates.map Event.gps_update)).vehiclePolylines).map
      List.length = some (updatesFor v updates) := by
  have hv2 : inherited v = false := by simp [inherited, hv]
  obtain ⟨_, h2, _, h4⟩ :=
    run_gps_updates dist v hv2 updates (initialState dom) (consistent_initialState dom)
  have hsome := h4 hn
  unfold pathPoints at h2
  cases hp : jsGet v (run dist (initialState dom) (updates.map Event.gps_update)).vehiclePolylines with
  | none => rw [hp] at hsome; simp at hsome
  | some path =>
    rw [hp] at h2
    simp [initialState, jsGet] at h2
    simp [h2]

/-! ## Completion and removal -/

theorem mem_setAdd_iff (x y : Option String) (set : List (Option String)) :
    y ∈ setAdd x set ↔ y = x ∨ y ∈ set := by
  unfold setAdd
  split
  · constructor
    · intro h; exact Or.inr h
    · rintro (h | h)
      · subst h; assumption
      · exact h
  · simp [or_comm]

theorem mem_setDelete_iff (x y : Option String) (set : List (Option String)) :
    y ∈ setDelete x set ↔ y ∈ set ∧ y ≠ x := by
  simp [setDelete]

theorem jsGet_polylinesAfterUpdate_ne (data : VehicleUpdate) (s : State) (v : String)
    (hne : v ≠ data.vehicle_id) :
    jsGet v (polylinesAfterUpdate data s) = jsGet v s.vehiclePolylines := by
  unfold polylinesAfterUpdate
  cases hr : rejectsUpdate data s with
  | true => simp
  | false =>
    simp only [Bool.false_eq_true, if_false]
    cases hm : jsGet data.vehicle_id s.vehicleMarkers with
    | none => simp [jsGet_jsSet_ne _ _ _ _ hne]
    | some marker =>
      cases hp : jsGet data.vehicle_id s.vehiclePolylines with
      | none => simp
      | some path => simp [jsGet_jsSet_ne _ _ _ _ hne]

theorem jsGet_markersAfterUpdate_ne (data : VehicleUpdate) (s : State) (v : String)
    (hne : v ≠ data.vehicle_id) :
    jsGet v (markersAfterUpdate data s) = jsGet v s.vehicleMarkers := by
  unfold markersAfterUpdate
  cases hr : rejectsUpdate data s with
  | true => simp
  | false =>
    simp only [Bool.false_eq_true, if_false]
    cases hm : jsGet data.vehicle_id s.vehicleMarkers <;> simp [jsGet_jsSet_ne _ _ _ _ hne]

theorem updateVehicleOnMap_activeVehicles (dist : LatLng → LatLng → ℚ) (data : VehicleUpdate)
    (s : State) :
    (updateVehicleOnMap dist data s).state.activeVehicles = s.activeVehicles ∨
    (updateVehicleOnMap dist data s).state.activeVehicles
      = setAdd (some data.vehicle_id) s.activeVehicles := by
  cases hr : rejectsUpdate data s with
  | true => left; rw [updateVehicleOnMap_rejected dist data s hr]
  | false =>
    unfold updateVehicleOnMap
    simp only [hr, Bool.false_eq_true, if_false]
    cases hm : jsGet data.vehicle_id s.vehicleMarkers with
    | none =>
      simp only [jsGet_jsSet_self]
      right
      rw [(render_tables dist _ _ _).2.2.1]
    | some marker =>
      simp only
      cases hp : jsGet data.vehicle_id s.vehiclePolylines with
      | none => left; simp
      | some path =>
        simp only
        right
        rw [(render_tables dist _ _ _).2.2.1]

theorem removeVehicle_absent (dist : LatLng → LatLng → ℚ) (v : String) (s : State)
    (h : jsGet v s.vehicleMarkers = none) (hv : inherited v = false) :
    (removeVehicle dist v s).state = s := by
  unfold removeVehicle
  simp [h, hv]

theorem removeVehicle_present (dist : LatLng → LatLng → ℚ) (v : String) (s : State)
    (h : (jsGet v s.vehicleMarkers).isSome ∨ inherited v = true) :
    (removeVehicle dist v s).state.vehicleMarkers = jsDelete v s.vehicleMarkers ∧
    (∀ k, jsGet k (removeVehicle dist v s).state.vehiclePolylines
      = if k = v then none else jsGet k s.vehiclePolylines) ∧
    (removeVehicle dist v s).state.activeVehicles
      = setAdd none (setDelete (some v) s.activeVehicles) ∧
    (removeVehicle dist v s).state.timers = s.timers := by
  have hguard : ((jsGet v s.vehicleMarkers).isNone && !inherited v) = false := by
    rcases h with h | h
    · cases hm : jsGet v s.vehicleMarkers with
      | none => rw [hm] at h; simp at h
      | some m => simp
    · simp [h]
  unfold removeVehicle
  simp only [hguard, Bool.false_eq_true, if_false]
  refine ⟨?_, ?_, ?_, ?_⟩
  · rw [(render_tables dist _ _ _).1]
    split <;> rfl
  · intro k
    rw [(render_tables dist _ _ _).2.1]
    split
    · by_cases hk : k = v
      · subst hk; simp [jsGet_jsDelete_self]
      · simp [hk, jsGet_jsDelete_ne _ _ _ hk]
    · rename_i hno
      by_cases hk : k = v
      · subst hk
        cases hp : jsGet k s.vehiclePolylines with
        | none => simp [hp]
        | some path => simp [hp] at hno
      · simp [hk]
  · rw [(render_tables dist _ _ _).2.2.1]
    split <;> rfl
  · rw [(render_tables dist _ _ _).2.2.2]
    split <;> rfl

theorem removeVehicle_effect (dist : LatLng → LatLng → ℚ) (v : String) (s : State) :
    (jsGet v s.vehicleMarkers = none ∧ (removeVehicle dist v s).state = s) ∨
    ((removeVehicle dist v s).state.vehicleMarkers = jsDelete v s.vehicleMarkers ∧
     (∀ k, jsGet k (removeVehicle dist v s).state.vehiclePolylines
       = if k = v then none else jsGet k s.vehiclePolylines) ∧
     (removeVehicle dist v s).state.activeVehicles
       = setAdd none (setDelete (some v) s.activeVehicles) ∧
     (removeVehicle dist v s).state.timers = s.timers) := by
  cases hi : inherited v with
  | true => right; exact removeVehicle_present dist v s (Or.inr hi)
  | false =>
    cases hm : jsGet v s.vehicleMarkers with
    | none => left; exact ⟨rfl, removeVehicle_absent dist v s hm hi⟩
    | some marker => right; exact removeVehicle_present dist v s (Or.inl (by simp [hm]))

theorem handleVehicleCompletion_tables (v : String) (s : State) :
    (handleVehicleCompletion v s).vehicleMarkers = s.vehicleMarkers ∧
    (handleVehicleCompletion v s).vehiclePolylines = s.vehiclePolylines ∧
    (handleVehicleCompletion v s).activeVehicles = s.activeVehicles ∧
    (handleVehicleCompletion v s).dom = s.dom := by
  unfold handleVehicleCompletion
  split <;> simp

theorem handleVehicleCompletion_timers (v : String) (s : State)
    (h : (jsGet v s.vehicleMarkers).isSome) :
    (handleVehicleCompletion v s).timers = s.timers ++ [{ delay := 3000, vehicleId := v }] := by
  unfold handleVehicleCompletion
  simp [h, removalDelay]

theorem clearMap_confirmed (dist : LatLng → LatLng → ℚ) (s : State) :
    (clearMap dist true s).state.vehicleMarkers = [] ∧
    (clearMap dist true s).state.vehiclePolylines = [] ∧
    (clearMap dist true s).state.activeVehicles = [none] ∧
    (clearMap dist true s).state.timers = s.timers := by
  unfold clearMap
  simp only [if_true]
  refine ⟨?_, ?_, ?_, ?_⟩
  · rw [(render_tables dist _ _ _).1]
  · rw [(render_tables dist _ _ _).2.1]
  · rw [(render_tables dist _ _ _).2.2.1]; simp [setAdd]
  · rw [(render_tables dist _ _ _).2.2.2]

theorem removeVehicle_gone (dist : LatLng → LatLng → ℚ) (v : String) (s : State)
    (hs : GoneTogether v s) :
    jsGet v (removeVehicle dist v s).state.vehicleMarkers = none ∧
    jsGet v (removeVehicle dist v s).state.vehiclePolylines = none ∧
    some v ∉ (removeVehicle dist v s).state.activeVehicles := by
  rcases removeVehicle_effect dist v s with ⟨hm, hsame⟩ | ⟨h1, h2, h3, _⟩
  · rw [hsame]
    exact ⟨hm, hs hm⟩
  · refine ⟨?_, ?_, ?_⟩
    · rw [h1, jsGet_jsDelete_self]
    · rw [h2]; simp
    · rw [h3, mem_setAdd_iff, mem_setDelete_iff]
      simp

theorem step_goneTogether (dist : LatLng → LatLng → ℚ) (v : String) (s : State) (e : Event)
    (hs : GoneTogether v s) : GoneTogether v (step dist s e) := by
  cases e with
  | gps_update data =>
    simp only [step]
    cases hr : rejectsUpdate data s with
    | true => rw [updateVehicleOnMap_rejected dist data s hr]; exact hs
    | false =>
    obtain ⟨h1, h2, _⟩ := updateVehicleOnMap_tables dist data s
    intro hm
    rw [h1] at hm
    by_cases hv : v = data.vehicle_id
    · have := isSome_jsGet_markersAfterUpdate data s hr v
      rw [hm] at this
      simp [hv] at this
    · rw [jsGet_markersAfterUpdate_ne data s v hv] at hm
      obtain ⟨g1, g2⟩ := hs hm
      rw [h2, jsGet_polylinesAfterUpdate_ne data s v hv]
      refine ⟨g1, ?_⟩
      rcases updateVehicleOnMap_activeVehicles dist data s with h | h
      · rw [h]; exact g2
      · rw [h, mem_setAdd_iff]
        simp only [Option.some.injEq, not_or]
        exact ⟨hv, g2⟩
  | vehicle_completed vehicle_id =>
    simp only [step]
    obtain ⟨c1, c2, c3, _⟩ := handleVehicleCompletion_tables vehicle_id s
    intro hm
    rw [c1] at hm
    rw [c2, c3]
    exact hs hm
  | timeout k =>
    simp only [step]
    cases ht : s.timers[k]? with
    | none => exact hs
    | some t =>
      simp only
      have hs1 : GoneTogether v { s with timers := s.timers.eraseIdx k } := hs
      generalize ({ s with timers := s.timers.eraseIdx k } : State) = s1 at hs1
      by_cases hv : v = t.vehicleId
      · subst hv
        intro _
        exact (removeVehicle_gone dist _ s1 hs1).2
      · rcases removeVehicle_effect dist t.vehicleId s1 with ⟨_, hsame⟩ | ⟨h1, h2, h3, _⟩
        · rw [hsame]; exact hs1
        · intro hgone
          rw [h1, jsGet_jsDelete_ne _ _ _ hv] at hgone
          obtain ⟨g1, g2⟩ := hs1 hgone
          rw [h2, h3, mem_setAdd_iff, mem_setDelete_iff]
          simp only [hv, if_false]
          refine ⟨g1, ?_⟩
          simp [g2]
  | clearMapClick confirmed =>
    simp only [step]
    cases confirmed with
    | false => simpa [clearMap] using hs
    | true =>
      obtain ⟨h1, h2, h3, _⟩ := clearMap_confirmed dist s
      intro _
      rw [h2, h3]
      simp [jsGet]

theorem run_goneTogether (dist : LatLng → LatLng → ℚ) (v : String) (events : List Event) :
    ∀ s : State, GoneTogether v s → GoneTogether v (run dist s events) := by
  induction events with
  | nil => intro s hs; exact hs
  | cons e es ih =>
    intro s hs
    rw [run_cons]
    exact ih _ (step_goneTogether dist v s e hs)

/-- C2: when `v` has a marker, `handleVehicleCompletion v` returns with the three tables
as they were and with exactly one more pending timer, of delay 3000 ms, for `v`; and
whatever events are handled in between, once a pending removal of `v` fires, `v` is in
none of `vehicleMarkers`, `vehiclePolylines` and `activeVehicles`. -/
theorem completion_schedules_removal (dist : LatLng → LatLng → ℚ) (s : State) (v : String)
    (hv : (jsGet v s.vehicleMarkers).isSome) :
    (handleVehicleCompletion v s).vehicleMarkers = s.vehicleMarkers ∧
    (handleVehicleCompletion v s).vehiclePolylines = s.vehiclePolylines ∧
    (handleVehicleCompletion v s).activeVehicles = s.activeVehicles ∧
    (handleVehicleCompletion v s).timers = s.timers ++ [{ delay := 3000, vehicleId := v }] ∧
    ∀ (events : List Event) (k : Nat),
      ((run dist (handleVehicleCompletion v s) events).timers[k]?).map Timer.vehicleId = some v →
      jsGet v (step dist (run dist (handleVehicleCompletion v s) events)
        (Event.timeout k)).vehicleMarkers = none ∧
      jsGet v (step dist (run dist (handleVehicleCompletion v s) events)
        (Event.timeout k)).vehiclePolylines = none ∧
      some v ∉ (step dist (run dist (handleVehicleCompletion v s) events)
        (Event.timeout k)).activeVehicles := by
  obtain ⟨c1, c2, c3, _⟩ := handleVehicleCompletion_tables v s
  have hgone : GoneTogether v (handleVehicleCompletion v s) := by
    intro hm
    rw [c1] at hm
    rw [hm] at hv
    simp at hv
  refine ⟨c1, c2, c3, handleVehicleCompletion_timers v s hv, ?_⟩
  intro events k hk
  have hrun := run_goneTogether dist v events _ hgone
  generalize run dist (handleVehicleCompletion v s) events = s2 at hk hrun
  simp only [step]
  cases ht : s2.timers[k]? with
  | none => rw [ht] at hk; simp at hk
  | some t =>
    rw [ht] at hk
    simp only [Option.map_some', Option.some.injEq] at hk
    simp only [hk]
    exact removeVehicle_gone dist v _ hrun

/-! ## What the renderers write -/

theorem render_dom (dist : LatLng → LatLng → ℚ) (vehicleId : Option String)
    (data : Option VehicleUpdate) (s : State)
    (ha : s.dom.activeVehicles.isSome) (ht : s.dom.totalVehicles.isSome) :
    ((updateActiveVehiclesList vehicleId data s).andThen (updateMetrics dist)).state.dom.activeVehicles
      = some (.items ((setAdd vehicleId s.activeVehicles).map (vehicleItem vehicleId data))) ∧
    ((updateActiveVehiclesList vehicleId data s).andThen (updateMetrics dist)).state.dom.totalVehicles
      = some (setAdd vehicleId s.activeVehicles).length := by
  have hne : (setAdd vehicleId s.activeVehicles).length ≠ 0 := by
    intro h
    exact setAdd_ne_nil vehicleId s.activeVehicles (List.length_eq_zero.mp h)
  cases hc : s.dom.activeVehicles with
  | none => rw [hc] at ha; simp at ha
  | some c =>
    cases hn : s.dom.totalVehicles with
    | none => rw [hn] at ht; simp at ht
    | some n =>
      unfold updateActiveVehiclesList Outcome.andThen updateMetrics
      simp only [hne, if_false, hc, hn]
      cases hd : s.dom.totalDistance <;> simp

theorem updateVehicleOnMap_activeVehicles_of_consistent (dist : LatLng → LatLng → ℚ)
    (data : VehicleUpdate) (s : State) (hs : Consistent s)
    (hacc : rejectsUpdate data s = false) :
    (updateVehicleOnMap dist data s).state.activeVehicles
      = setAdd (some data.vehicle_id) s.activeVehicles := by
  have hk := hs data.vehicle_id
  unfold updateVehicleOnMap
  simp only [hacc, Bool.false_eq_true, if_false]
  cases hm : jsGet data.vehicle_id s.vehicleMarkers with
  | none =>
    simp only [jsGet_jsSet_self]
    rw [(render_tables dist _ _ _).2.2.1]
  | some marker =>
    simp only
    cases hp : jsGet data.vehicle_id s.vehiclePolylines with
    | none => rw [hm, hp] at hk; simp at hk
    | some path =>
      simp only [hp]
      rw [(render_tables dist _ _ _).2.2.1]

theorem updateVehicleOnMap_dom (dist : LatLng → LatLng → ℚ) (data : VehicleUpdate) (s : State)
    (hs : Consistent s) (hacc : rejectsUpdate data s = false)
    (ha : s.dom.activeVehicles.isSome) (ht : s.dom.totalVehicles.isSome) :
    (updateVehicleOnMap dist data s).state.dom.activeVehicles
      = some (.items ((setAdd (some data.vehicle_id) s.activeVehicles).map
          (vehicleItem (some data.vehicle_id) (some data)))) ∧
    (updateVehicleOnMap dist data s).state.dom.totalVehicles
      = some (setAdd (some data.vehicle_id) s.activeVehicles).length := by
  have hk := hs data.vehicle_id
  unfold updateVehicleOnMap
  simp only [hacc, Bool.false_eq_true, if_false]
  cases hm : jsGet data.vehicle_id s.vehicleMarkers with
  | none =>
    simp only [jsGet_jsSet_self]
    exact render_dom dist _ _ _ ha ht
  | some marker =>
    simp only
    cases hp : jsGet data.vehicle_id s.vehiclePolylines with
    | none => rw [hm, hp] at hk; simp at hk
    | some path =>
      simp only [hp]
      exact render_dom dist _ _ _ ha ht

theorem run_updates_of_one_vehicle (dist : LatLng → LatLng → ℚ) (v : String)
    (hv : inherited v = false)
    (more : List VehicleUpdate) (hmore : ∀ u ∈ more, u.vehicle_id = v) :
    ∀ s : State, Consistent s → s.activeVehicles = [some v] →
      Consistent (run dist s (more.map Event.gps_update)) ∧
      (run dist s (more.map Event.gps_update)).activeVehicles = [some v] ∧
      (s.dom.activeVehicles.isSome → s.dom.totalVehicles = some 1 →
        (run dist s (more.map Event.gps_update)).dom.activeVehicles.isSome ∧
        (run dist s (more.map Event.gps_update)).dom.totalVehicles = some 1) := by
  induction more with
  | nil =>
    intro s hs ha
    exact ⟨hs, ha, fun h1 h2 => ⟨h1, h2⟩⟩
  | cons u us ih =>
    intro s hs ha
    have hu : u.vehicle_id = v := hmore u (by simp)
    have hacc := rejectsUpdate_eq_false_of_not_inherited u s (by rw [hu]; exact hv)
    have hc := updateVehicleOnMap_consistent dist u s hs
    have hact : (updateVehicleOnMap dist u s).state.activeVehicles = [some v] := by
      rw [updateVehicleOnMap_activeVehicles_of_consistent dist u s hs hacc, ha, hu]
      simp [setAdd]
    obtain ⟨i1, i2, i3⟩ :=
      ih (fun w hw => hmore w (List.mem_cons_of_mem _ hw)) (updateVehicleOnMap dist u s).state hc hact
    simp only [List.map_cons, run_cons, step]
    refine ⟨i1, i2, ?_⟩
    intro h1 h2
    have ht : s.dom.totalVehicles.isSome := by simp [h2]
    obtain ⟨d1, d2⟩ := updateVehicleOnMap_dom dist u s hs hacc h1 ht
    apply i3
    · simp [d1]
    · rw [d2, ha, hu]
      simp [setAdd]

/-- C3: from the empty state, after the update for V1 at (10, 20) with speed 5 and
progress 50, and after any number of further updates for V1, `activeVehicles.size` is 1
and, on a page that has the sidebar container and the `totalVehicles` element, the text
written to `totalVehicles` is 1; handling the `vehicle_completed` event for V1 leaves
both as they are. -/
theorem active_count_stays_one (dist : LatLng → LatLng → ℚ) (dom : Dom)
    (distance_covered elapsed_time : ℚ) (more : List VehicleUpdate)
    (hmore : ∀ u ∈ more, u.vehicle_id = "V1") :
    (run dist (initialState dom)
      ((updateV1 distance_covered elapsed_time :: more).map Event.gps_update)).activeVehicles.length
      = 1 ∧
    (handleVehicleCompletion "V1" (run dist (initialState dom)
      ((updateV1 distance_covered elapsed_time :: more).map Event.gps_update))).activeVehicles.length
      = 1 ∧
    (dom.activeVehicles.isSome → dom.totalVehicles.isSome →
      (run dist (initialState dom)
        ((updateV1 distance_covered elapsed_time :: more).map Event.gps_update)).dom.totalVehicles
        = some 1 ∧
      (handleVehicleCompletion "V1" (run dist (initialState dom)
        ((updateV1 distance_covered elapsed_time :: more).map Event.gps_update))).dom.totalVehicles
        = some 1) := by
  have h0 := consistent_initialState dom
  have hV1 : inherited "V1" = false := by decide
  have hacc := rejectsUpdate_eq_false_of_not_inherited
    (updateV1 distance_covered elapsed_time) (initialState dom) hV1
  have hc := updateVehicleOnMap_consistent dist (updateV1 distance_covered elapsed_time) _ h0
  have hact : (updateVehicleOnMap dist (updateV1 distance_covered elapsed_time)
      (initialState dom)).state.activeVehicles = [some "V1"] := by
    rw [updateVehicleOnMap_activeVehicles_of_consistent dist _ _ h0 hacc]
    simp [initialState, setAdd, updateV1]
  obtain ⟨_, i2, i3⟩ := run_updates_of_one_vehicle dist "V1" hV1 more hmore _ hc hact
  have hcompl : ∀ s : State, (handleVehicleCompletion "V1" s).activeVehicles = s.activeVehicles ∧
      (handleVehicleCompletion "V1" s).dom = s.dom := by
    intro s
    exact ⟨(handleVehicleCompletion_tables "V1" s).2.2.1,
      (handleVehicleCompletion_tables "V1" s).2.2.2⟩
  simp only [List.map_cons, run_cons, step]
  refine ⟨by rw [i2]; rfl, by rw [(hcompl _).1, i2]; rfl, ?_⟩
  intro ha ht
  obtain ⟨d1, d2⟩ := updateVehicleOnMap_dom dist (updateV1 distance_covered elapsed_time)
    (initialState dom) h0 hacc ha ht
  have hone : (updateVehicleOnMap dist (updateV1 distance_covered elapsed_time)
      (initialState dom)).state.dom.totalVehicles = some 1 := by
    rw [d2]
    simp [initialState, setAdd]
  have := (i3 (by simp [d1]) hone).2
  exact ⟨this, by rw [(hcompl _).2]; exact this⟩

/-! ## Upsert: the path and the marker of the updated vehicle -/

/-- C4: when `v` is tracked (it has a marker and a path `p`), a `gps_update` for `v` at
position `q` leaves `p ++ [q]` as the path of `v`: the old path is kept as it was, in
order, and the new point goes last; the path of every other id is unchanged. -/
theorem path_append_only (dist : LatLng → LatLng → ℚ) (s : State) (data : VehicleUpdate)
    (marker : Marker) (p : List LatLng)
    (hm : jsGet data.vehicle_id s.vehicleMarkers = some marker)
    (hp : jsGet data.vehicle_id s.vehiclePolylines = some p) :
    jsGet data.vehicle_id (updateVehicleOnMap dist data s).state.vehiclePolylines
      = some (p ++ [{ lat := data.latitude, lng := data.longitude }]) ∧
    ∀ k : String, k ≠ data.vehicle_id →
      jsGet k (updateVehicleOnMap dist data s).state.vehiclePolylines
        = jsGet k s.vehiclePolylines := by
  rw [(updateVehicleOnMap_tables dist data s).2.1]
  refine ⟨?_, fun k hk => jsGet_polylinesAfterUpdate_ne data s k hk⟩
  unfold polylinesAfterUpdate
  simp [rejectsUpdate, hm, hp, jsGet_jsSet_self]

/-- C7, the claim as stated fails for an id that names a property of `Object.prototype`:
in the empty state `constructor` has no marker, yet the update for it raises a
`TypeError` and leaves the state as it was, without a marker and without a path overlay
for that id. -/
theorem no_marker_for_inherited_name :
    jsGet "constructor" (initialState fullDom).vehicleMarkers = none ∧
    updateVehicleOnMap unitDist (updateNamed "constructor") (initialState fullDom)
      = { state := initialState fullDom, thrown := some (JsError.typeError "setLatLng") } ∧
    jsGet "constructor" (updateVehicleOnMap unitDist (updateNamed "constructor")
      (initialState fullDom)).state.vehicleMarkers = none := by
  decide

/-- C7 as amended: for an id `v` that is not the name of a property inherited from
`Object.prototype`, a `gps_update` for `v` creates, when `v` has no marker, a marker at
the position of the update (with the popup of the update) and a path overlay; when `v`
has a marker it moves that marker there and replaces its popup content by the speed,
progress, distance and time of the update.  Either way the marker of `v` ends at the
position of the update and the markers of the other ids are unchanged. -/
theorem upsert_marker (dist : LatLng → LatLng → ℚ) (s : State) (data : VehicleUpdate)
    (hv : data.vehicle_id ∉ objectPrototypeNames) :
    (jsGet data.vehicle_id s.vehicleMarkers = none →
      jsGet data.vehicle_id (updateVehicleOnMap dist data s).state.vehicleMarkers
        = some { latLng := { lat := data.latitude, lng := data.longitude }
                 icon := data.vehicle_id
                 popup := popupContent data } ∧
      (jsGet data.vehicle_id (updateVehicleOnMap dist data s).state.vehiclePolylines).isSome) ∧
    (∀ marker : Marker, jsGet data.vehicle_id s.vehicleMarkers = some marker →
      jsGet data.vehicle_id (updateVehicleOnMap dist data s).state.vehicleMarkers
        = some { marker with
                 latLng := { lat := data.latitude, lng := data.longitude }
                 popup := { vehicleId := data.vehicle_id
                            speed := data.speed
                            progress := data.progress
                            distance := data.distance_covered
                            time := formatTime data.elapsed_time } }) ∧
    (jsGet data.vehicle_id (updateVehicleOnMap dist data s).state.vehicleMarkers).map
      Marker.latLng = some { lat := data.latitude, lng := data.longitude } ∧
    ∀ k : String, k ≠ data.vehicle_id →
      jsGet k (updateVehicleOnMap dist data s).state.vehicleMarkers = jsGet k s.vehicleMarkers := by
  have hacc : rejectsUpdate data s = false :=
    rejectsUpdate_eq_false_of_not_inherited data s (by simp [inherited, hv])
  obtain ⟨h1, h2, _⟩ := updateVehicleOnMap_tables dist data s
  rw [h1, h2]
  refine ⟨?_, ?_, ?_, fun k hk => jsGet_markersAfterUpdate_ne data s k hk⟩
  · intro hm
    unfold markersAfterUpdate polylinesAfterUpdate
    simp [hacc, hm, jsGet_jsSet_self]
  · intro marker hm
    unfold markersAfterUpdate
    simp [hacc, hm, jsGet_jsSet_self, popupContent]
  · unfold markersAfterUpdate
    simp only [hacc, Bool.false_eq_true, if_false]
    cases hm : jsGet data.vehicle_id s.vehicleMarkers <;> simp [jsGet_jsSet_self]

/-! ## The metrics panel -/

theorem foldl_congr_mem {α β : Type} (f g : α → β → α) (l : List β) :
    ∀ acc : α, (∀ x ∈ l, ∀ a, f a x = g a x) → l.foldl f acc = l.foldl g acc := by
  induction l with
  | nil => intro acc _; rfl
  | cons x xs ih =>
    intro acc h
    simp only [List.foldl_cons]
    rw [h x (by simp) acc]
    exact ih _ (fun y hy a => h y (List.mem_cons_of_mem _ hy) a)

theorem addSegments_cons_cons (dist : LatLng → LatLng → ℚ) (a b : LatLng) (t : List LatLng)
    (total : ℚ) :
    addSegments dist (a :: b :: t) total = addSegments dist (b :: t) (total + dist a b / 1000) := by
  unfold addSegments
  have h1 : (a :: b :: t).length - 1 = t.length + 1 := by simp
  have h2 : (b :: t).length - 1 = t.length := by simp
  rw [h1, h2, List.range'_succ, List.foldl_cons]
  have h3 : List.range' (1 + 1) t.length = (List.range' 1 t.length).map (fun i => i + 1) := by
    have := List.map_add_range' 1 1 t.length 1
    simpa [Nat.add_comm] using this.symm
  rw [h3, List.foldl_map]
  simp only [Nat.sub_self, List.getD_cons_zero, List.getD_cons_succ, Nat.add_sub_cancel]
  apply foldl_congr_mem
  intro i hi acc
  have hpos : 1 ≤ i := by
    rw [List.mem_range'_1] at hi
    exact hi.1
  obtain ⟨j, rfl⟩ : ∃ j, i = j + 1 := ⟨i - 1, by omega⟩
  simp

theorem addSegments_eq (dist : LatLng → LatLng → ℚ) (path : List LatLng) :
    ∀ total : ℚ, addSegments dist path total = total + pathLength dist path := by
  induction path with
  | nil => intro total; simp [addSegments, pathLength]
  | cons a rest ih =>
    intro total
    cases rest with
    | nil => simp [addSegments, pathLength]
    | cons b t =>
      rw [addSegments_cons_cons, ih]
      simp [pathLength, add_assoc]

theorem totalDistance_eq (dist : LatLng → LatLng → ℚ) (s : State) :
    totalDistance dist s = sumOfPathLengths dist s := by
  unfold totalDistance sumOfPathLengths
  have key : ∀ (paths : List (List LatLng)) (acc : ℚ),
      paths.foldl (fun total latlngs => addSegments dist latlngs total) acc
        = acc + (paths.map (pathLength dist)).sum := by
    intro paths
    induction paths with
    | nil => intro acc; simp
    | cons p ps ih =>
      intro acc
      simp only [List.foldl_cons, List.map_cons, List.sum_cons]
      rw [ih, addSegments_eq, add_assoc]
  rw [key, zero_add]

/-- C5: the total that `updateMetrics` accumulates is the sum, over the paths in
`vehiclePolylines`, of the distances between consecutive points (metres divided by
1000); a path of fewer than two points contributes 0; the count it writes to
`totalVehicles` is `activeVehicles.size`, and the total is what it writes to
`totalDistance`. -/
theorem updateMetrics_rollups (dist : LatLng → LatLng → ℚ) (s : State) :
    totalDistance dist s = sumOfPathLengths dist s ∧
    (∀ path : List LatLng, path.length < 2 → pathLength dist path = 0) ∧
    (s.dom.totalVehicles.isSome →
      (updateMetrics dist s).state.dom.totalVehicles = some s.activeVehicles.length) ∧
    (s.dom.totalVehicles.isSome → s.dom.totalDistance.isSome →
      (updateMetrics dist s).state.dom.totalDistance = some (sumOfPathLengths dist s) ∧
      (updateMetrics dist s).thrown = none) := by
  refine ⟨totalDistance_eq dist s, ?_, ?_, ?_⟩
  · intro path hlen
    match path, hlen with
    | [], _ => simp [pathLength]
    | [a], _ => simp [pathLength]
    | a :: b :: t, h => simp at h; omega
  · intro ht
    unfold updateMetrics
    cases hn : s.dom.totalVehicles with
    | none => rw [hn] at ht; simp at ht
    | some n =>
      simp only
      cases hd : s.dom.totalDistance <;> simp
  · intro ht hd
    rw [← totalDistance_eq]
    unfold updateMetrics
    cases hn : s.dom.totalVehicles with
    | none => rw [hn] at ht; simp at ht
    | some n =>
      cases hd2 : s.dom.totalDistance with
      | none => rw [hd2] at hd; simp at hd
      | some d => simp [hd2, totalDistance]

/-! ## Reachable states keep markers and paths together -/

theorem step_consistent (dist : LatLng → LatLng → ℚ) (s : State) (e : Event)
    (hs : Consistent s) : Consistent (step dist s e) := by
  cases e with
  | gps_update data => exact updateVehicleOnMap_consistent dist data s hs
  | vehicle_completed vehicle_id =>
    simp only [step]
    obtain ⟨c1, c2, _, _⟩ := handleVehicleCompletion_tables vehicle_id s
    intro k2
    rw [c1, c2]
    exact hs k2
  | timeout k =>
    simp only [step]
    cases ht : s.timers[k]? with
    | none => exact hs
    | some t =>
      simp only
      have hs1 : Consistent { s with timers := s.timers.eraseIdx k } := hs
      generalize ({ s with timers := s.timers.eraseIdx k } : State) = s1 at hs1
      rcases removeVehicle_effect dist t.vehicleId s1 with ⟨_, hsame⟩ | ⟨h1, h2, _, _⟩
      · rw [hsame]; exact hs1
      · intro k2
        rw [h1, h2]
        by_cases hk : k2 = t.vehicleId
        · subst hk; simp [jsGet_jsDelete_self]
        · simp [hk, jsGet_jsDelete_ne _ _ _ hk, hs1 k2]
  | clearMapClick confirmed =>
    simp only [step]
    cases confirmed with
    | false => simpa [clearMap] using hs
    | true =>
      obtain ⟨h1, h2, _, _⟩ := clearMap_confirmed dist s
      intro k2
      rw [h1, h2]
      simp [jsGet]

theorem run_consistent (dist : LatLng → LatLng → ℚ) (events : List Event) :
    ∀ s : State, Consistent s → Consistent (run dist s events) := by
  induction events with
  | nil => intro s hs; exact hs
  | cons e es ih =>
    intro s hs
    rw [run_cons]
    exact ih _ (step_consistent dist s e hs)

/-! ## Monotonicity of the total distance -/

theorem pathLength_cons_cons (dist : LatLng → LatLng → ℚ) (a b : LatLng) (t : List LatLng) :
    pathLength dist (a :: b :: t) = dist a b / 1000 + pathLength dist (b :: t) := by
  simp [pathLength]

theorem pathLength_nonneg (dist : LatLng → LatLng → ℚ) (hnn : ∀ a b, 0 ≤ dist a b)
    (path : List LatLng) : 0 ≤ pathLength dist path := by
  unfold pathLength
  apply List.sum_nonneg
  intro x hx
  rw [List.mem_map] at hx
  obtain ⟨ab, _, rfl⟩ := hx
  exact div_nonneg (hnn _ _) (by norm_num)

theorem pathLength_append_le (dist : LatLng → LatLng → ℚ) (hnn : ∀ a b, 0 ≤ dist a b)
    (q : LatLng) (path : List LatLng) :
    pathLength dist path ≤ pathLength dist (path ++ [q]) := by
  induction path with
  | nil => simp [pathLength]
  | cons a rest ih =>
    cases rest with
    | nil =>
      have h := pathLength_nonneg dist hnn [a, q]
      simpa [pathLength] using h
    | cons b t =>
      have h1 := pathLength_cons_cons dist a b (t ++ [q])
      have h2 := pathLength_cons_cons dist a b t
      simp only [List.cons_append] at ih h1 ⊢
      rw [h1, h2]
      linarith

theorem sum_jsSet_le (f : List LatLng → ℚ) (k : String) (value : List LatLng)
    (table : List (String × List LatLng))
    (hold : ∀ old, jsGet k table = some old → f old ≤ f value) (hval : 0 ≤ f value) :
    ((jsValues table).map f).sum ≤ ((jsValues (jsSet k value table)).map f).sum := by
  induction table with
  | nil => simpa [jsValues, jsSet] using hval
  | cons hd tl ih =>
    obtain ⟨k1, p⟩ := hd
    by_cases h : k1 = k
    · have := hold p (by simp [jsGet, h])
      simpa [jsValues, jsSet, h] using this
    · have ih2 := ih (fun old ho => hold old (by simpa [jsGet, h] using ho))
      simpa [jsValues, jsSet, h] using ih2

/-- C6: for a distance function that is never negative, the total distance that
`updateMetrics` computes does not decrease when `updateVehicleOnMap` processes a
`gps_update`, in every state that the page reaches from its empty start through
updates, completions, removals and clear-all actions. -/
theorem total_distance_monotone (dist : LatLng → LatLng → ℚ) (hnn : ∀ a b, 0 ≤ dist a b)
    (dom : Dom) (events : List Event) (data : VehicleUpdate) :
    totalDistance dist (run dist (initialState dom) events) ≤
      totalDistance dist
        (updateVehicleOnMap dist data (run dist (initialState dom) events)).state := by
  have hs := run_consistent dist events _ (consistent_initialState dom)
  generalize run dist (initialState dom) events = s at hs
  rw [totalDistance_eq, totalDistance_eq]
  unfold sumOfPathLengths
  rw [(updateVehicleOnMap_tables dist data s).2.1]
  have hk := hs data.vehicle_id
  unfold polylinesAfterUpdate
  cases hr : rejectsUpdate data s with
  | true => simp
  | false =>
  simp only [Bool.false_eq_true, if_false]
  cases hm : jsGet data.vehicle_id s.vehicleMarkers with
  | none =>
    rw [hm] at hk
    simp only
    apply sum_jsSet_le
    · intro old ho
      rw [ho] at hk
      simp at hk
    · exact pathLength_nonneg dist hnn _
  | some marker =>
    simp only
    cases hp : jsGet data.vehicle_id s.vehiclePolylines with
    | none => simp
    | some path =>
      simp only
      apply sum_jsSet_le
      · intro old ho
        rw [hp] at ho
        cases ho
        exact pathLength_append_le dist hnn _ _
      · exact pathLength_nonneg dist hnn _

/-! ## Completion does not change a status -/

theorem mem_activeVehicles_run_gps (dist : LatLng → LatLng → ℚ) (x : Option String)
    (updates : List VehicleUpdate) :
    ∀ s : State, x ∈ s.activeVehicles →
      x ∈ (run dist s (updates.map Event.gps_update)).activeVehicles := by
  induction updates with
  | nil => intro s hx; exact hx
  | cons u us ih =>
    intro s hx
    simp only [List.map_cons, run_cons, step]
    apply ih
    rcases updateVehicleOnMap_activeVehicles dist u s with h | h
    · rw [h]; exact hx
    · rw [h]; exact mem_setAdd_of_mem _ _ _ hx

theorem updateActiveVehiclesList_items (vehicleId : Option String) (data : Option VehicleUpdate)
    (s : State) (ha : s.dom.activeVehicles.isSome) :
    (updateActiveVehiclesList vehicleId data s).state.dom.activeVehicles
      = some (.items ((setAdd vehicleId s.activeVehicles).map (vehicleItem vehicleId data))) := by
  have hne : (setAdd vehicleId s.activeVehicles).length ≠ 0 := by
    intro h
    exact setAdd_ne_nil vehicleId s.activeVehicles (List.length_eq_zero.mp h)
  cases hc : s.dom.activeVehicles with
  | none => rw [hc] at ha; simp at ha
  | some c =>
    unfold updateActiveVehiclesList
    simp [hne, hc]

/-- C8, the claim as stated fails: after the update for V1 and its `vehicle_completed`
event, V1 is still a member of `activeVehicles`, the sidebar still shows it with status
Active, and an update for another vehicle during the grace period renders it with
status Active again. -/
theorem completed_vehicle_still_active :
    some "V1" ∈ (run unitDist (initialState fullDom) graceEvents).activeVehicles ∧
    (run unitDist (initialState fullDom) graceEvents).dom.activeVehicles
      = some (.items [{ vid := "V1", status := "Active", width := 50 }]) ∧
    (run unitDist (initialState fullDom) (graceEvents ++ [Event.gps_update updateV2])).dom.activeVehicles
      = some (.items [{ vid := "V1", status := "Active", width := 0 },
                      { vid := "V2", status := "Active", width := 30 }]) := by
  decide

theorem gracePeriod_sample :
    GracePeriod unitDist "V1" (handleVehicleCompletion "V1" trackedV1)
      [Event.gps_update updateV2] := by
  refine ⟨by decide, ?_, trivial⟩
  intro k hk
  cases hk

theorem mem_timers_step (dist : LatLng → LatLng → ℚ) (v : String) (t : Timer)
    (ht : t.vehicleId = v) (s : State) (e : Event) (hmem : t ∈ s.timers)
    (hfire : ∀ k, e = Event.timeout k → (s.timers[k]?).map Timer.vehicleId ≠ some v) :
    t ∈ (step dist s e).timers := by
  cases e with
  | gps_update data =>
    simp only [step]
    rw [(updateVehicleOnMap_tables dist data s).2.2]
    exact hmem
  | vehicle_completed vehicle_id =>
    simp only [step, handleVehicleCompletion]
    split
    · simp [hmem]
    · exact hmem
  | timeout k =>
    simp only [step]
    cases hk : s.timers[k]? with
    | none => exact hmem
    | some t2 =>
      simp only
      have hne : t2 ≠ t := by
        intro h
        have := hfire k rfl
        rw [hk, h] at this
        simp [ht] at this
      have hrest : t ∈ s.timers.eraseIdx k := by
        rw [List.mem_eraseIdx_iff_getElem?]
        obtain ⟨i, hi⟩ := List.getElem?_of_mem hmem
        refine ⟨i, ?_, hi⟩
        intro hik
        rw [hik, hk] at hi
        exact hne (Option.some.inj hi)
      rcases removeVehicle_effect dist t2.vehicleId { s with timers := s.timers.eraseIdx k } with
        ⟨_, hsame⟩ | ⟨_, _, _, h4⟩
      · rw [hsame]; exact hrest
      · rw [h4]; exact hrest
  | clearMapClick confirmed =>
    simp only [step]
    cases confirmed with
    | false => simpa [clearMap] using hmem
    | true => rw [(clearMap_confirmed dist s).2.2.2]; exact hmem

theorem mem_activeVehicles_step (dist : LatLng → LatLng → ℚ) (v : String) (s : State)
    (e : Event) (hmem : some v ∈ s.activeVehicles) (hclear : e ≠ Event.clearMapClick true)
    (hfire : ∀ k, e = Event.timeout k → (s.timers[k]?).map Timer.vehicleId ≠ some v) :
    some v ∈ (step dist s e).activeVehicles := by
  cases e with
  | gps_update data =>
    simp only [step]
    rcases updateVehicleOnMap_activeVehicles dist data s with h | h
    · rw [h]; exact hmem
    · rw [h]; exact mem_setAdd_of_mem _ _ _ hmem
  | vehicle_completed vehicle_id =>
    simp only [step]
    rw [(handleVehicleCompletion_tables vehicle_id s).2.2.1]
    exact hmem
  | timeout k =>
    simp only [step]
    cases hk : s.timers[k]? with
    | none => exact hmem
    | some t2 =>
      simp only
      have hne : ¬ v = t2.vehicleId := by
        intro h
        have := hfire k rfl
        rw [hk] at this
        simp [h] at this
      rcases removeVehicle_effect dist t2.vehicleId { s with timers := s.timers.eraseIdx k } with
        ⟨_, hsame⟩ | ⟨_, _, h3, _⟩
      · rw [hsame]; exact hmem
      · rw [h3, mem_setAdd_iff, mem_setDelete_iff]
        right
        exact ⟨hmem, by simpa using hne⟩
  | clearMapClick confirmed =>
    simp only [step]
    cases confirmed with
    | false => simpa [clearMap] using hmem
    | true => exact absurd rfl hclear

theorem run_gracePeriod (dist : LatLng → LatLng → ℚ) (v : String) (t : Timer)
    (ht : t.vehicleId = v) (events : List Event) :
    ∀ s : State, some v ∈ s.activeVehicles → t ∈ s.timers → GracePeriod dist v s events →
      some v ∈ (run dist s events).activeVehicles ∧ t ∈ (run dist s events).timers := by
  induction events with
  | nil => intro s h1 h2 _; exact ⟨h1, h2⟩
  | cons e es ih =>
    intro s h1 h2 hg
    obtain ⟨g1, g2, g3⟩ := hg
    rw [run_cons]
    exact ih _ (mem_activeVehicles_step dist v s e h1 g1 g2)
      (mem_timers_step dist v t ht s e h2 g2) g3

/-- C8 as amended: handling `vehicle_completed` for a tracked `v` records no status: it
only schedules the removal (one more pending timer, of 3000 ms, for `v`) and leaves the
tables, the active set and the page as they are.  During the grace period (no clear-all
is confirmed and no pending removal of `v` fires) `v` stays a member of the active set,
the removal stays pending, and every rendering of the sidebar shows `v` with status
Active, as it shows every entry; `v` leaves the active set when a pending removal of
`v` fires. -/
theorem completion_keeps_vehicle_active (dist : LatLng → LatLng → ℚ) (s : State) (v : String)
    (hm : (jsGet v s.vehicleMarkers).isSome) (hv : some v ∈ s.activeVehicles) :
    (handleVehicleCompletion v s).vehicleMarkers = s.vehicleMarkers ∧
    (handleVehicleCompletion v s).vehiclePolylines = s.vehiclePolylines ∧
    (handleVehicleCompletion v s).activeVehicles = s.activeVehicles ∧
    (handleVehicleCompletion v s).dom = s.dom ∧
    (handleVehicleCompletion v s).timers = s.timers ++ [{ delay := 3000, vehicleId := v }] ∧
    (∀ events : List Event, GracePeriod dist v (handleVehicleCompletion v s) events →
      some v ∈ (run dist (handleVehicleCompletion v s) events).activeVehicles ∧
      { delay := 3000, vehicleId := v } ∈ (run dist (handleVehicleCompletion v s) events).timers ∧
      ∀ (vehicleId : Option String) (data : Option VehicleUpdate),
        (run dist (handleVehicleCompletion v s) events).dom.activeVehicles.isSome →
        ∃ list : List VehicleItem,
          (updateActiveVehiclesList vehicleId data
            (run dist (handleVehicleCompletion v s) events)).state.dom.activeVehicles
            = some (.items list) ∧
          (∃ width : ℚ, { vid := v, status := "Active", width := width } ∈ list) ∧
          ∀ item ∈ list, item.status = "Active") ∧
    ∀ (events : List Event) (k : Nat),
      ((run dist (handleVehicleCompletion v s) events).timers[k]?).map Timer.vehicleId = some v →
      some v ∉ (step dist (run dist (handleVehicleCompletion v s) events)
        (Event.timeout k)).activeVehicles := by
  obtain ⟨c1, c2, c3, c4⟩ := handleVehicleCompletion_tables v s
  have c5 := handleVehicleCompletion_timers v s hm
  refine ⟨c1, c2, c3, c4, c5, ?_, ?_⟩
  · intro events hg
    obtain ⟨hmem, htimer⟩ := run_gracePeriod dist v { delay := 3000, vehicleId := v } rfl events
      (handleVehicleCompletion v s) (by rw [c3]; exact hv) (by rw [c5]; simp) hg
    refine ⟨hmem, htimer, ?_⟩
    generalize run dist (handleVehicleCompletion v s) events = s2 at hmem
    intro vehicleId data ha
    refine ⟨_, updateActiveVehiclesList_items vehicleId data s2 ha, ?_, ?_⟩
    · refine ⟨(vehicleItem vehicleId data (some v)).width, ?_⟩
      rw [List.mem_map]
      exact ⟨some v, mem_setAdd_of_mem _ _ _ hmem, rfl⟩
    · intro item hitem
      rw [List.mem_map] at hitem
      obtain ⟨x, _, rfl⟩ := hitem
      rfl
  · intro events k hk
    have hgone : GoneTogether v (handleVehicleCompletion v s) := by
      intro hnone
      rw [c1] at hnone
      rw [hnone] at hm
      simp at hm
    have hrun := run_goneTogether dist v events _ hgone
    generalize run dist (handleVehicleCompletion v s) events = s2 at hk hrun
    simp only [step]
    cases ht : s2.timers[k]? with
    | none => rw [ht] at hk; simp at hk
    | some t =>
      rw [ht] at hk
      simp only [Option.map_some', Option.some.injEq] at hk
      simp only [hk]
      have hrun2 : GoneTogether v { s2 with timers := s2.timers.eraseIdx k } := hrun
      exact (removeVehicle_gone dist v _ hrun2).2.2

theorem completion_keeps_vehicle_active_witness :
    (jsGet "V1" trackedV1.vehicleMarkers).isSome ∧ some "V1" ∈ trackedV1.activeVehicles ∧
    GracePeriod unitDist "V1" (handleVehicleCompletion "V1" trackedV1)
      [Event.gps_update updateV2] ∧
    (handleVehicleCompletion "V1" trackedV1).timers
      = trackedV1.timers ++ [{ delay := 3000, vehicleId := "V1" }] ∧
    some "V1" ∈ (run unitDist (handleVehicleCompletion "V1" trackedV1)
      [Event.gps_update updateV2]).activeVehicles ∧
    some "V1" ∉ (step unitDist (run unitDist (handleVehicleCompletion "V1" trackedV1)
      [Event.gps_update updateV2]) (Event.timeout 0)).activeVehicles :=
  ⟨by decide, by decide, gracePeriod_sample,
   (completion_keeps_vehicle_active unitDist trackedV1 "V1" (by decide) (by decide)).2.2.2.2.1,
   ((completion_keeps_vehicle_active unitDist trackedV1 "V1" (by decide) (by decide)).2.2.2.2.2.1
      [Event.gps_update updateV2] gracePeriod_sample).1,
   (completion_keeps_vehicle_active unitDist trackedV1 "V1" (by decide) (by decide)).2.2.2.2.2.2
      [Event.gps_update updateV2] 0 (by decide)⟩

/-! ## The rollups of an emptied table -/

/-- C9, the code at the failing inputs: after the only tracked vehicle has been removed
by its timer, and after a confirmed clear-all, both tables are empty but
`activeVehicles` holds `undefined`, the count written to `totalVehicles` is 1 and the
sidebar shows one entry, labelled undefined and Active, not the empty state. -/
theorem emptied_table_rollups :
    (run unitDist (initialState fullDom) removalEvents).vehicleMarkers = [] ∧
    (run unitDist (initialState fullDom) removalEvents).vehiclePolylines = [] ∧
    (run unitDist (initialState fullDom) removalEvents).activeVehicles = [none] ∧
    (run unitDist (initialState fullDom) removalEvents).dom.totalVehicles = some 1 ∧
    (run unitDist (initialState fullDom) removalEvents).dom.activeVehicles
      = some (.items [{ vid := "undefined", status := "Active", width := 0 }]) ∧
    (run unitDist (initialState fullDom) clearEvents).vehicleMarkers = [] ∧
    (run unitDist (initialState fullDom) clearEvents).vehiclePolylines = [] ∧
    (run unitDist (initialState fullDom) clearEvents).activeVehicles = [none] ∧
    (run unitDist (initialState fullDom) clearEvents).dom.totalVehicles = some 1 ∧
    (run unitDist (initialState fullDom) clearEvents).dom.activeVehicles
      = some (.items [{ vid := "undefined", status := "Active", width := 0 }]) := by
  decide

/-! ## Missing DOM targets -/

/-- C10, the claim as stated fails: on a page without the target elements
`updateMetrics` raises a `TypeError`, and `updateActiveVehiclesList` raises one after it
has added its argument to `activeVehicles`. -/
theorem unguarded_renderers_raise :
    (updateMetrics unitDist (initialState bareDom)).thrown
      = some (JsError.typeError "totalVehicles") ∧
    (updateActiveVehiclesList (some "V1") (some (updateV1 0 0)) (initialState bareDom)).thrown
      = some (JsError.typeError "activeVehicles") ∧
    (updateActiveVehiclesList (some "V1") (some (updateV1 0 0))
      (initialState bareDom)).state.activeVehicles = [some "V1"] := by
  decide

/-- C10 as amended: `populateTripTable` is a no-op that raises nothing when
`tripTableBody` is missing.  `updateMetrics` and `updateActiveVehiclesList` have no such
guard: with `totalVehicles` missing `updateMetrics` raises before it changes anything,
with only `totalDistance` missing it raises after the count has been written, and with
the sidebar container missing `updateActiveVehiclesList` raises after the insertion
into `activeVehicles`. -/
theorem missing_dom_targets (dist : LatLng → LatLng → ℚ) :
    (∀ (trips : Option (List Trip)) (dom : AnalyticsDom), dom.tripTableBody = none →
      populateTripTable trips dom = { dom := dom, thrown := none }) ∧
    (∀ s : State, s.dom.totalVehicles = none →
      (updateMetrics dist s).thrown.isSome ∧ (updateMetrics dist s).state = s) ∧
    (∀ s : State, s.dom.totalVehicles.isSome → s.dom.totalDistance = none →
      (updateMetrics dist s).thrown.isSome ∧
      (updateMetrics dist s).state.dom.totalVehicles = some s.activeVehicles.length) ∧
    (∀ (vehicleId : Option String) (data : Option VehicleUpdate) (s : State),
      s.dom.activeVehicles = none →
      (updateActiveVehiclesList vehicleId data s).thrown.isSome ∧
      (updateActiveVehiclesList vehicleId data s).state
        = { s with activeVehicles := setAdd vehicleId s.activeVehicles }) := by
  refine ⟨?_, ?_, ?_, ?_⟩
  · intro trips dom h
    unfold populateTripTable
    simp [h]
  · intro s h
    unfold updateMetrics
    simp [h]
  · intro s ht hd
    unfold updateMetrics
    cases hn : s.dom.totalVehicles with
    | none => rw [hn] at ht; simp at ht
    | some n => simp [hd]
  · intro vehicleId data s h
    unfold updateActiveVehiclesList
    simp only [h]
    split <;> simp

theorem missing_dom_targets_witness :
    bareAnalyticsDom.tripTableBody = none ∧
    populateTripTable (some []) bareAnalyticsDom = { dom := bareAnalyticsDom, thrown := none } ∧
    (initialState bareDom).dom.activeVehicles = none ∧
    (updateActiveVehiclesList none none (initialState bareDom)).thrown.isSome :=
  ⟨by decide,
   (missing_dom_targets unitDist).1 (some []) bareAnalyticsDom (by decide),
   by decide,
   ((missing_dom_targets unitDist).2.2.2 none none (initialState bareDom) (by decide)).1⟩

/-! ## Instances at concrete inputs -/

theorem path_length_eq_update_count_witness :
    "V1" ∉ objectPrototypeNames ∧ 1 ≤ updatesFor "V1" sampleUpdates ∧
    (jsGet "V1" (run unitDist (initialState fullDom)
      (sampleUpdates.map Event.gps_update)).vehiclePolylines).map List.length
      = some (updatesFor "V1" sampleUpdates) :=
  ⟨by decide, by decide,
   path_length_eq_update_count unitDist fullDom "V1" (by decide) sampleUpdates (by decide)⟩

theorem completion_schedules_removal_witness :
    (jsGet "V1" trackedV1.vehicleMarkers).isSome ∧
    (handleVehicleCompletion "V1" trackedV1).timers
      = trackedV1.timers ++ [{ delay := 3000, vehicleId := "V1" }] ∧
    some "V1" ∉ (step unitDist (run unitDist (handleVehicleCompletion "V1" trackedV1) [])
      (Event.timeout 0)).activeVehicles :=
  ⟨by decide,
   (completion_schedules_removal unitDist trackedV1 "V1" (by decide)).2.2.2.1,
   ((completion_schedules_removal unitDist trackedV1 "V1" (by decide)).2.2.2.2 [] 0
      (by decide)).2.2⟩

theorem active_count_stays_one_witness :
    (∀ u ∈ [updateV1 1 60, updateV1 2 120], u.vehicle_id = "V1") ∧
    fullDom.activeVehicles.isSome ∧ fullDom.totalVehicles.isSome ∧
    (run unitDist (initialState fullDom)
      ((updateV1 0 0 :: [updateV1 1 60, updateV1 2 120]).map
        Event.gps_update)).activeVehicles.length = 1 ∧
    (run unitDist (initialState fullDom)
      ((updateV1 0 0 :: [updateV1 1 60, updateV1 2 120]).map
        Event.gps_update)).dom.totalVehicles = some 1 :=
  ⟨by decide, by decide, by decide,
   (active_count_stays_one unitDist fullDom 0 0 [updateV1 1 60, updateV1 2 120] (by decide)).1,
   ((active_count_stays_one unitDist fullDom 0 0 [updateV1 1 60, updateV1 2 120]
      (by decide)).2.2 (by decide) (by decide)).1⟩

theorem path_append_only_witness :
    jsGet (updateV1 1 60).vehicle_id trackedV1.vehicleMarkers
      = some { latLng := { lat := 10, lng := 20 }, icon := "V1"
               popup := popupContent (updateV1 0 0) } ∧
    jsGet (updateV1 1 60).vehicle_id trackedV1.vehiclePolylines
      = some [{ lat := 10, lng := 20 }] ∧
    jsGet (updateV1 1 60).vehicle_id
      (updateVehicleOnMap unitDist (updateV1 1 60) trackedV1).state.vehiclePolylines
      = some ([{ lat := 10, lng := 20 }]
          ++ [{ lat := (updateV1 1 60).latitude, lng := (updateV1 1 60).longitude }]) :=
  ⟨rfl, rfl,
   (path_append_only unitDist trackedV1 (updateV1 1 60)
      { latLng := { lat := 10, lng := 20 }, icon := "V1", popup := popupContent (updateV1 0 0) }
      [{ lat := 10, lng := 20 }] rfl rfl).1⟩

theorem upsert_marker_witness :
    updateV2.vehicle_id ∉ objectPrototypeNames ∧
    jsGet updateV2.vehicle_id trackedV1.vehicleMarkers = none ∧
    jsGet updateV2.vehicle_id (updateVehicleOnMap unitDist updateV2 trackedV1).state.vehicleMarkers
      = some { latLng := { lat := updateV2.latitude, lng := updateV2.longitude }
               icon := updateV2.vehicle_id
               popup := popupContent updateV2 } ∧
    updateV3.vehicle_id ∉ objectPrototypeNames ∧
    jsGet updateV3.vehicle_id trackedV1.vehicleMarkers
      = some { latLng := { lat := 10, lng := 20 }, icon := "V1"
               popup := popupContent (updateV1 0 0) } ∧
    jsGet updateV3.vehicle_id (updateVehicleOnMap unitDist updateV3 trackedV1).state.vehicleMarkers
      = some { latLng := { lat := updateV3.latitude, lng := updateV3.longitude }, icon := "V1"
               popup := { vehicleId := updateV3.vehicle_id
                          speed := updateV3.speed
                          progress := updateV3.progress
                          distance := updateV3.distance_covered
                          time := formatTime updateV3.elapsed_time } } :=
  ⟨by decide, by decide,
   ((upsert_marker unitDist trackedV1 updateV2 (by decide)).1 (by decide)).1,
   by decide, rfl,
   (upsert_marker unitDist trackedV1 updateV3 (by decide)).2.1
     { latLng := { lat := 10, lng := 20 }, icon := "V1", popup := popupContent (updateV1 0 0) }
     rfl⟩

theorem updateMetrics_rollups_witness :
    trackedV1.dom.totalVehicles.isSome ∧ trackedV1.dom.totalDistance.isSome ∧
    (updateMetrics unitDist trackedV1).state.dom.totalVehicles
      = some trackedV1.activeVehicles.length ∧
    (updateMetrics unitDist trackedV1).state.dom.totalDistance
      = some (sumOfPathLengths unitDist trackedV1) :=
  ⟨by decide, by decide,
   (updateMetrics_rollups unitDist trackedV1).2.2.1 (by decide),
   ((updateMetrics_rollups unitDist trackedV1).2.2.2 (by decide) (by decide)).1⟩

theorem total_distance_monotone_witness :
    (∀ a b : LatLng, 0 ≤ unitDist a b) ∧
    totalDistance unitDist (run unitDist (initialState fullDom) graceEvents) ≤
      totalDistance unitDist
        (updateVehicleOnMap unitDist (updateV1 1 60)
          (run unitDist (initialState fullDom) graceEvents)).state :=
  ⟨fun _ _ => by simp [unitDist],
   total_distance_monotone unitDist (fun _ _ => by simp [unitDist]) fullDom graceEvents
     (updateV1 1 60)⟩

/-! ## The invariant of the three collections -/

theorem step_activeCovers (dist : LatLng → LatLng → ℚ) (s : State) (e : Event)
    (hc : Consistent s) (hs : ActiveCovers s) : ActiveCovers (step dist s e) := by
  cases e with
  | gps_update data =>
    simp only [step]
    cases hr : rejectsUpdate data s with
    | true => rw [updateVehicleOnMap_rejected dist data s hr]; exact hs
    | false =>
    intro k hk
    rw [(updateVehicleOnMap_tables dist data s).1, isSome_jsGet_markersAfterUpdate data s hr] at hk
    rw [updateVehicleOnMap_activeVehicles_of_consistent dist data s hc hr, mem_setAdd_iff]
    by_cases hv : data.vehicle_id = k
    · left; rw [hv]
    · right
      simp only [hv, decide_False, Bool.false_or] at hk
      exact hs k hk
  | vehicle_completed vehicle_id =>
    simp only [step]
    obtain ⟨c1, _, c3, _⟩ := handleVehicleCompletion_tables vehicle_id s
    intro k2 hk2
    rw [c1] at hk2
    rw [c3]
    exact hs k2 hk2
  | timeout k =>
    simp only [step]
    cases ht : s.timers[k]? with
    | none => exact hs
    | some t =>
      simp only
      have hs1 : ActiveCovers { s with timers := s.timers.eraseIdx k } := hs
      generalize ({ s with timers := s.timers.eraseIdx k } : State) = s1 at hs1
      rcases removeVehicle_effect dist t.vehicleId s1 with ⟨_, hsame⟩ | ⟨h1, _, h3, _⟩
      · rw [hsame]; exact hs1
      · intro k2 hk2
        rw [h1] at hk2
        rw [h3, mem_setAdd_iff, mem_setDelete_iff]
        by_cases hk : k2 = t.vehicleId
        · subst hk
          rw [jsGet_jsDelete_self] at hk2
          simp at hk2
        · rw [jsGet_jsDelete_ne _ _ _ hk] at hk2
          right
          exact ⟨hs1 k2 hk2, by simpa using hk⟩
  | clearMapClick confirmed =>
    simp only [step]
    cases confirmed with
    | false => simpa [clearMap] using hs
    | true =>
      obtain ⟨h1, _, _, _⟩ := clearMap_confirmed dist s
      intro k2 hk2
      rw [h1] at hk2
      simp [jsGet] at hk2

theorem run_invariant (dist : LatLng → LatLng → ℚ) (events : List Event) :
    ∀ s : State, Consistent s → ActiveCovers s →
      Consistent (run dist s events) ∧ ActiveCovers (run dist s events) := by
  induction events with
  | nil => intro s hc hs; exact ⟨hc, hs⟩
  | cons e es ih =>
    intro s hc hs
    rw [run_cons]
    exact ih _ (step_consistent dist s e hc) (step_activeCovers dist s e hc hs)

/-- C16: in every state reached from the initial state by `gps_update` events,
`vehicle_completed` events, firings of pending removals and clear-all clicks, an id has
an entry in `vehicleMarkers` exactly when it has one in `vehiclePolylines`, and every id
with an entry in `vehicleMarkers` is a member of `activeVehicles`. -/
theorem reachable_collections_agree (dist : LatLng → LatLng → ℚ) (dom : Dom)
    (events : List Event) (k : String) :
    ((jsGet k (run dist (initialState dom) events).vehicleMarkers).isSome ↔
      (jsGet k (run dist (initialState dom) events).vehiclePolylines).isSome) ∧
    ((jsGet k (run dist (initialState dom) events).vehicleMarkers).isSome →
      some k ∈ (run dist (initialState dom) events).activeVehicles) := by
  have h0 : ActiveCovers (initialState dom) := by
    intro k2 hk2
    simp [initialState, jsGet] at hk2
  obtain ⟨hc, hs⟩ := run_invariant dist events _ (consistent_initialState dom) h0
  refine ⟨?_, hs k⟩
  rw [hc k]

theorem reachable_collections_agree_witness :
    (jsGet "V2" (run unitDist (initialState fullDom) mixedEvents).vehicleMarkers).isSome ∧
    (jsGet "V2" (run unitDist (initialState fullDom) mixedEvents).vehiclePolylines).isSome ∧
    some "V2" ∈ (run unitDist (initialState fullDom) mixedEvents).activeVehicles :=
  ⟨by decide,
   (reachable_collections_agree unitDist fullDom mixedEvents "V2").1.mp (by decide),
   (reachable_collections_agree unitDist fullDom mixedEvents "V2").2 (by decide)⟩

/-! ## The sidebar list -/

theorem isPrefixOf_append_of_not_properStart (pat t rest : List Char)
    (h : properStart t pat = false) (hp : pat ≠ []) :
    pat.isPrefixOf (t ++ rest) = pat.isPrefixOf t := by
  induction pat generalizing t with
  | nil => exact absurd rfl hp
  | cons p ps ih =>
    cases t with
    | nil => simp [properStart] at h
    | cons a ts =>
      simp only [List.cons_append, List.isPrefixOf]
      by_cases hpa : p = a
      · subst hpa
        simp only [beq_self_eq_true, Bool.true_and]
        cases ps with
        | nil => simp [List.isPrefixOf]
        | cons q qs =>
          apply ih
          · simpa [properStart, List.isPrefixOf] using h
          · simp
      · have hne : (p == a) = false := by simpa using hpa
        rw [hne, Bool.false_and, Bool.false_and]

theorem countStarts_append_settled (pat : List Char) (hp : pat ≠ []) (text rest : List Char)
    (h : settled pat text = true) :
    countStarts pat (text ++ rest) = countStarts pat text + countStarts pat rest := by
  induction text with
  | nil => simp [countStarts]
  | cons c cs ih =>
    simp only [settled, Bool.and_eq_true, Bool.not_eq_true'] at h
    have h1 := isPrefixOf_append_of_not_properStart pat (c :: cs) rest h.1 hp
    simp only [List.cons_append] at h1 ⊢
    simp only [countStarts, h1, ih h.2]
    omega

theorem countStarts_append_hole (c : Char) (pat text rest : List Char) (h : c ∉ text) :
    countStarts (c :: pat) (text ++ rest) = countStarts (c :: pat) rest := by
  induction text with
  | nil => rfl
  | cons a as ih =>
    have ha : ¬ (c = a) := fun e => h (by simp [e])
    have has : c ∉ as := fun e => h (by simp [e])
    have hne : (c == a) = false := by simpa using ha
    have hpre : (c :: pat).isPrefixOf (a :: (as ++ rest)) = false := by
      simp only [List.isPrefixOf, hne, Bool.false_and]
    rw [List.cons_append, countStarts, hpre, ih has]
    simp

theorem foldl_append_data {α : Type} (f : α → String) (list : List α) (init : String) :
    (list.foldl (fun html item => html ++ f item) init).data
      = init.data ++ (list.map (fun item => (f item).data)).flatten := by
  induction list generalizing init with
  | nil => simp
  | cons a as ih => simp [ih, String.data_append]

theorem countStarts_itemHtml (numText : ℚ → String) (item : VehicleItem) (rest : List Char)
    (h1 : '<' ∉ item.vid.data) (h2 : '<' ∉ item.status.data)
    (h3 : '<' ∉ (numText item.width).data) :
    countStarts itemOpening ((itemHtml numText item).data ++ rest)
      = 1 + countStarts itemOpening rest := by
  have hp : itemOpening ≠ [] := by decide
  unfold itemHtml
  simp only [String.data_append, List.append_assoc]
  rw [countStarts_append_settled _ hp _ _ (by decide)]
  rw [show itemOpening = '<' :: "div class=\"vehicle-item\"".data from rfl]
  rw [countStarts_append_hole _ _ _ _ h1]
  rw [countStarts_append_settled _ (by simp) _ _ (by decide)]
  rw [countStarts_append_hole _ _ _ _ h1]
  rw [countStarts_append_settled _ (by simp) _ _ (by decide)]
  rw [countStarts_append_hole _ _ _ _ h2]
  rw [countStarts_append_settled _ (by simp) _ _ (by decide)]
  rw [countStarts_append_hole _ _ _ _ h3]
  rw [countStarts_append_settled _ (by simp) _ _ (by decide)]
  generalize countStarts _ rest = n
  simp only [String.data, countStarts, List.isPrefixOf]
  simp

theorem countStarts_items (numText : ℚ → String) (list : List VehicleItem)
    (h : ∀ item ∈ list, '<' ∉ item.vid.data ∧ '<' ∉ item.status.data ∧
      '<' ∉ (numText item.width).data) :
    countStarts itemOpening (Sidebar.innerHTML numText (.items list)).data = list.length := by
  unfold Sidebar.innerHTML
  rw [foldl_append_data]
  simp only [String.data, List.nil_append]
  induction list with
  | nil => rfl
  | cons item rest ih =>
    have hi := h item (List.mem_cons_self _ _)
    rw [List.map_cons, List.flatten_cons, countStarts_itemHtml numText item _ hi.1 hi.2.1 hi.2.2,
      ih (fun x hx => h x (List.mem_cons_of_mem _ hx)), List.length_cons]
    omega

set_option maxRecDepth 8000

/-- C17, the claim as stated fails for an id that holds markup: on an empty page the
update adds one member to the set, yet the text assigned to the sidebar holds three
openings of a `vehicle-item` block: the one of the template and one in each of the two
places where the id is written into it unescaped. -/
theorem sidebar_markup_in_id :
    (updateActiveVehiclesList (some markupUpdate.vehicle_id) (some markupUpdate)
      (initialState fullDom)).state.activeVehicles = [some markupUpdate.vehicle_id] ∧
    (updateActiveVehiclesList (some markupUpdate.vehicle_id) (some markupUpdate)
      (initialState fullDom)).state.dom.activeVehicles.map
        (fun sidebar => countStarts itemOpening (Sidebar.innerHTML wholeText sidebar).data)
      = some 3 := by
  decide

/-- C17 as amended: on a page with the sidebar container, when no member of
`activeVehicles` (the set as it is after the call) has a `<` in its text and the texts of
the two widths have none, the list that `updateActiveVehiclesList` renders for a
`gps_update` for `v` has one entry per member, in insertion order: the text assigned to
the container is the blocks of the members one after the other and holds as many
openings of a `vehicle-item` block as the set has members; the entry of `v` has the
progress of the update as its width and every other entry has width 0, whatever progress
that vehicle reported before. -/
theorem sidebar_one_entry_per_member (numText : ℚ → String) (s : State) (data : VehicleUpdate)
    (hdom : s.dom.activeVehicles.isSome)
    (hids : ∀ vid ∈ (updateActiveVehiclesList (some data.vehicle_id) (some data)
      s).state.activeVehicles, '<' ∉ (vidText vid).data)
    (hnum : '<' ∉ (numText data.progress).data ∧ '<' ∉ (numText 0).data) :
    (updateActiveVehiclesList (some data.vehicle_id) (some data) s).state.dom.activeVehicles
      = some (.items
          ((updateActiveVehiclesList (some data.vehicle_id) (some data) s).state.activeVehicles.map
            (expectedItem data.vehicle_id data.progress))) ∧
    (updateActiveVehiclesList (some data.vehicle_id) (some data) s).state.dom.activeVehicles.map
        (fun sidebar => (Sidebar.innerHTML numText sidebar).data)
      = some (((updateActiveVehiclesList (some data.vehicle_id) (some data)
          s).state.activeVehicles.map
            (fun vid => (itemHtml numText
              (expectedItem data.vehicle_id data.progress vid)).data)).flatten) ∧
    (updateActiveVehiclesList (some data.vehicle_id) (some data) s).state.dom.activeVehicles.map
        (fun sidebar => countStarts itemOpening (Sidebar.innerHTML numText sidebar).data)
      = some (updateActiveVehiclesList (some data.vehicle_id) (some data)
          s).state.activeVehicles.length ∧
    some data.vehicle_id
      ∈ (updateActiveVehiclesList (some data.vehicle_id) (some data) s).state.activeVehicles ∧
    (expectedItem data.vehicle_id data.progress (some data.vehicle_id)).width = data.progress ∧
    ∀ vid : Option String, vid ≠ some data.vehicle_id →
      (expectedItem data.vehicle_id data.progress vid).width = 0 := by
  have hset := (updateActiveVehiclesList_tables (some data.vehicle_id) (some data) s).2.2.1
  have hitems : (updateActiveVehiclesList (some data.vehicle_id) (some data)
      s).state.dom.activeVehicles
      = some (.items
          ((updateActiveVehiclesList (some data.vehicle_id) (some data) s).state.activeVehicles.map
            (expectedItem data.vehicle_id data.progress))) := by
    rw [updateActiveVehiclesList_items _ _ s hdom, hset]
    rfl
  refine ⟨hitems, ?_, ?_, ?_, ?_, ?_⟩
  · rw [hitems, Option.map_some']
    simp only [Sidebar.innerHTML, foldl_append_data, String.data, List.nil_append, List.map_map]
    rfl
  · rw [hitems, Option.map_some', countStarts_items, List.length_map]
    intro item hitem
    rw [List.mem_map] at hitem
    obtain ⟨vid, hvid, rfl⟩ := hitem
    have hstatus : '<' ∉ "Active".data := by decide
    refine ⟨hids vid hvid, hstatus, ?_⟩
    unfold expectedItem
    by_cases hv : vid = some data.vehicle_id
    · simp only [hv, if_true]
      exact hnum.1
    · simp only [hv, if_false]
      exact hnum.2
  · rw [hset]
    exact mem_setAdd_self _ _
  · simp [expectedItem]
  · intro vid hvid
    simp [expectedItem, hvid]

theorem sidebar_one_entry_per_member_witness :
    trackedV1.dom.activeVehicles.isSome ∧
    (∀ vid ∈ (updateActiveVehiclesList (some updateV2.vehicle_id) (some updateV2)
      trackedV1).state.activeVehicles, '<' ∉ (vidText vid).data) ∧
    ('<' ∉ (wholeText updateV2.progress).data ∧ '<' ∉ (wholeText 0).data) ∧
    (updateActiveVehiclesList (some updateV2.vehicle_id) (some updateV2)
      trackedV1).state.activeVehicles = [some "V1", some "V2"] ∧
    (updateActiveVehiclesList (some updateV2.vehicle_id) (some updateV2)
      trackedV1).state.dom.activeVehicles.map
        (fun sidebar => countStarts itemOpening (Sidebar.innerHTML wholeText sidebar).data)
      = some (updateActiveVehiclesList (some updateV2.vehicle_id) (some updateV2)
          trackedV1).state.activeVehicles.length :=
  ⟨by decide, by decide, by decide, by decide,
   (sidebar_one_entry_per_member wholeText trackedV1 updateV2 (by decide) (by decide)
     (by decide)).2.2.1⟩

/-! ## Time formatting -/

theorem roundHalfEven_near (y : ℚ) :
    y - 1 / 2 ≤ (roundHalfEven y : ℚ) ∧ (roundHalfEven y : ℚ) ≤ y + 1 / 2 := by
  unfold roundHalfEven
  have h1 := Int.floor_le y
  have h2 := Int.lt_floor_add_one y
  split_ifs with ha hb hc <;> push_cast <;> constructor <;> linarith

theorem floor_roundDouble_div60 (n : ℕ) (hn : n < 2 ^ 53) :
    ⌊roundDouble ((n : ℚ) / 60)⌋ = ((n / 60 : ℕ) : ℤ) := by
  rcases Nat.eq_zero_or_pos n with h0 | hpos
  · subst h0
    simp [roundDouble]
  have h := Nat.div_add_mod n 60
  have hlt := Nat.mod_lt n (show 60 > 0 by norm_num)
  generalize hqd : n / 60 = q at h
  generalize hrd : n % 60 = r at h hlt
  have hq : (n : ℚ) = 60 * (q : ℚ) + (r : ℚ) := by exact_mod_cast h.symm
  have hr : (r : ℚ) ≤ 59 := by
    have : r ≤ 59 := by omega
    exact_mod_cast this
  have hr0 : (0 : ℚ) ≤ (r : ℚ) := by positivity
  have hnq : (n : ℚ) < 2 ^ 53 := by exact_mod_cast hn
  have hx : (0 : ℚ) < (n : ℚ) / 60 := by positivity
  have hlog : Int.log 2 |(n : ℚ) / 60| < 48 := by
    rw [abs_of_pos hx, ← Int.lt_zpow_iff_log_lt (by norm_num) hx]
    rw [div_lt_iff₀ (by norm_num)]
    norm_num
    linarith
  unfold roundDouble
  rw [if_neg hx.ne']
  have he : max (Int.log 2 |(n : ℚ) / 60| - 52) (-1074) ≤ -5 := max_le (by omega) (by norm_num)
  generalize max (Int.log 2 |(n : ℚ) / 60| - 52) (-1074) = e at he
  obtain ⟨k, hk, hk5⟩ : ∃ k : ℕ, e = -(k : ℤ) ∧ 5 ≤ k := ⟨(-e).toNat, by omega, by omega⟩
  subst hk
  have hpow : (32 : ℚ) ≤ 2 ^ k := by
    have : (2 : ℚ) ^ 5 ≤ 2 ^ k := pow_le_pow_right₀ (by norm_num) hk5
    linarith
  have hN : (0 : ℚ) < 2 ^ k := by positivity
  rw [zpow_neg, zpow_natCast, div_inv_eq_mul]
  obtain ⟨hlo, hhi⟩ := roundHalfEven_near ((n : ℚ) / 60 * 2 ^ k)
  generalize roundHalfEven ((n : ℚ) / 60 * 2 ^ k) = R at hlo hhi
  have hy : (n : ℚ) / 60 * 2 ^ k = (q : ℚ) * 2 ^ k + (r : ℚ) / 60 * 2 ^ k := by
    rw [hq]; ring
  rw [hy] at hlo hhi
  have hnn : (0 : ℚ) ≤ (r : ℚ) / 60 * 2 ^ k := by positivity
  have hup : (r : ℚ) / 60 * 2 ^ k + 1 / 2 < 2 ^ k := by
    have : (r : ℚ) / 60 ≤ 59 / 60 := by linarith
    nlinarith
  have hR1 : ((q : ℤ) * 2 ^ k : ℤ) ≤ R := by
    have : (((q : ℤ) * 2 ^ k - 1 : ℤ) : ℚ) < (R : ℚ) := by
      push_cast
      linarith
    have := Int.cast_lt.mp this
    omega
  have hR2 : R < ((q : ℤ) + 1) * 2 ^ k := by
    have : (R : ℚ) < ((((q : ℤ) + 1) * 2 ^ k : ℤ) : ℚ) := by
      push_cast
      linarith
    exact Int.cast_lt.mp this
  rw [Int.floor_eq_iff]
  constructor
  · rw [← div_eq_mul_inv, le_div_iff₀ hN]
    exact_mod_cast hR1
  · rw [← div_eq_mul_inv, div_lt_iff₀ hN]
    exact_mod_cast hR2

theorem natText_of_small (q : ℕ) (h : q < 2 ^ 53) : natText q = toString q := by
  unfold natText
  rw [if_pos h]

theorem intText_natCast (q : ℕ) (h : q < 2 ^ 53) : intText (q : ℤ) = toString q := by
  unfold intText
  have : ¬ ((q : ℤ) < 0) := by omega
  rw [if_neg this, Int.natAbs_ofNat, natText_of_small q h]

theorem roundHalfEven_of_near (y : ℚ) (m : ℤ) (h1 : (m : ℚ) - 1 / 2 < y)
    (h2 : y < (m : ℚ) + 1 / 2) : roundHalfEven y = m := by
  obtain ⟨hlo, hhi⟩ := roundHalfEven_near y
  have ha : ((m - 1 : ℤ) : ℚ) < (roundHalfEven y : ℚ) := by
    push_cast
    linarith
  have hb : (roundHalfEven y : ℚ) < ((m + 1 : ℤ) : ℚ) := by
    push_cast
    linarith
  have ha2 := Int.cast_lt.mp ha
  have hb2 := Int.cast_lt.mp hb
  omega

theorem floor_div60_natCast (n : ℕ) : ⌊(n : ℚ) / 60⌋ = ((n / 60 : ℕ) : ℤ) := by
  have h := Nat.div_add_mod n 60
  have hlt := Nat.mod_lt n (show 60 > 0 by norm_num)
  generalize n / 60 = q at h
  generalize n % 60 = r at h hlt
  have hq : (n : ℚ) = 60 * (q : ℚ) + (r : ℚ) := by exact_mod_cast h.symm
  have hr : (r : ℚ) < 60 := by exact_mod_cast hlt
  have hr0 : (0 : ℚ) ≤ (r : ℚ) := by positivity
  rw [Int.floor_eq_iff, Int.cast_natCast]
  constructor
  · rw [le_div_iff₀ (by norm_num)]
    linarith
  · rw [div_lt_iff₀ (by norm_num)]
    linarith

theorem jsRem60_natCast (n : ℕ) : jsRem60 (n : ℚ) = ((n % 60 : ℕ) : ℚ) := by
  unfold jsRem60
  have hpos : (0 : ℚ) ≤ (n : ℚ) := by positivity
  rw [if_pos hpos, floor_div60_natCast, Int.cast_natCast]
  have h := Nat.div_add_mod n 60
  have hq : (n : ℚ) = 60 * ((n / 60 : ℕ) : ℚ) + ((n % 60 : ℕ) : ℚ) := by exact_mod_cast h.symm
  linarith

theorem log_sample : Int.log 2 |(((60 * 2 ^ 50 + 56 : ℕ) : ℚ) / 60)| = 50 := by
  have hx : (0 : ℚ) < ((60 * 2 ^ 50 + 56 : ℕ) : ℚ) / 60 := by positivity
  rw [abs_of_pos hx]
  apply le_antisymm
  · have : Int.log 2 (((60 * 2 ^ 50 + 56 : ℕ) : ℚ) / 60) < 51 := by
      rw [← Int.lt_zpow_iff_log_lt (by norm_num) hx]
      norm_num
    omega
  · rw [← Int.zpow_le_iff_le_log (by norm_num) hx]
    norm_num

theorem roundDouble_sample :
    roundDouble (((60 * 2 ^ 50 + 56 : ℕ) : ℚ) / 60) = ((2 ^ 50 + 1 : ℕ) : ℚ) := by
  have hx : (0 : ℚ) < ((60 * 2 ^ 50 + 56 : ℕ) : ℚ) / 60 := by positivity
  unfold roundDouble
  rw [log_sample, if_neg hx.ne']
  have he : max ((50 : ℤ) - 52) (-1074) = -2 := by decide
  rw [he, roundHalfEven_of_near _ (2 ^ 52 + 4) (by norm_num) (by norm_num)]
  norm_num

/-- C18, the claim as stated fails for a large second count: the double 60 * 2 ^ 50 + 56
has the whole quotient 2 ^ 50 by 60, yet the division rounds up to the next double and
`formatTime` prints one minute more. -/
theorem formatTime_minutes_off_by_one :
    (60 * 2 ^ 50 + 56) / 60 = 1125899906842624 ∧
    formatTime ((60 * 2 ^ 50 + 56 : ℕ) : ℚ) = "1125899906842625m 56s" := by
  refine ⟨by norm_num, ?_⟩
  unfold formatTime
  simp only [roundDouble_sample, jsRem60_natCast, Int.floor_natCast]
  rw [intText_natCast _ (by norm_num),
    intText_natCast _ (lt_of_lt_of_le (Nat.mod_lt _ (by norm_num)) (by norm_num))]
  decide

/-- C18 as amended: for a whole number of seconds `n` with `0 ≤ n < 2 ^ 53`,
`formatTime n` is the decimal text of `n / 60`, then `m`, a blank, the decimal text of
`n % 60` and `s`; the remainder is at most 59 and 60 times the quotient plus the
remainder is `n`. -/
theorem formatTime_of_nat (n : ℕ) (hn : n < 2 ^ 53) :
    formatTime (n : ℚ) = toString (n / 60) ++ "m " ++ toString (n % 60) ++ "s" ∧
    n % 60 ≤ 59 ∧ 60 * (n / 60) + n % 60 = n := by
  have hlt := Nat.mod_lt n (show 60 > 0 by norm_num)
  have hqn : n / 60 < 2 ^ 53 := lt_of_le_of_lt (Nat.div_le_self n 60) hn
  have hrn : n % 60 < 2 ^ 53 := lt_of_lt_of_le hlt (by norm_num)
  refine ⟨?_, by omega, Nat.div_add_mod n 60⟩
  unfold formatTime
  simp only [floor_roundDouble_div60 n hn, jsRem60_natCast, Int.floor_natCast]
  rw [intText_natCast _ hqn, intText_natCast _ hrn]

theorem formatTime_of_nat_witness :
    125 < 2 ^ 53 ∧ formatTime ((125 : ℕ) : ℚ) = "2m 5s" :=
  ⟨by norm_num, (formatTime_of_nat 125 (by norm_num)).1.trans (by decide)⟩

/-! ## The CSV export -/

theorem splitChars_ne_nil (sep : Char) (text : List Char) : splitChars sep text ≠ [] := by
  cases text with
  | nil => simp [splitChars]
  | cons c rest =>
    unfold splitChars
    split
    · simp
    · split <;> simp

theorem splitChars_append_sep (sep : Char) (piece rest : List Char) (h : sep ∉ piece) :
    splitChars sep (piece ++ sep :: rest) = piece :: splitChars sep rest := by
  induction piece with
  | nil => simp [splitChars]
  | cons c cs ih =>
    have hc : c ≠ sep := fun e => h (by simp [e])
    have hcs : sep ∉ cs := fun e => h (List.mem_cons_of_mem _ e)
    have hrec := ih hcs
    rw [List.cons_append, splitChars, if_neg hc, hrec]

theorem splitChars_of_not_mem (sep : Char) (piece : List Char) (h : sep ∉ piece) :
    splitChars sep piece = [piece] := by
  induction piece with
  | nil => simp [splitChars]
  | cons c cs ih =>
    have hc : c ≠ sep := fun e => h (by simp [e])
    have hcs : sep ∉ cs := fun e => h (List.mem_cons_of_mem _ e)
    have hrec := ih hcs
    rw [splitChars, if_neg hc, hrec]

theorem exportTripData_data (numText : ℚ → String) (trips : List Trip) :
    (exportTripData numText trips).data
      = csvHeader.data ++ newline ::
          (trips.map (fun t => csvLine numText t ++ [newline])).flatten := by
  have key : ∀ (ts : List Trip) (acc : String),
      (ts.foldl
        (fun csv trip =>
          csv ++ csvVehicle trip ++ "," ++ trip.date ++ "," ++ numText trip.distance ++ ","
            ++ numText trip.duration ++ "," ++ numText trip.speed ++ ","
            ++ vidText trip.status ++ "\n") acc).data
        = acc.data ++ (ts.map (fun t => csvLine numText t ++ [newline])).flatten := by
    intro ts
    induction ts with
    | nil => intro acc; simp
    | cons t rest ih =>
      intro acc
      simp only [List.foldl_cons, List.map_cons, List.flatten_cons]
      rw [ih]
      simp [String.data_append, csvLine, newline]
  unfold exportTripData
  rw [key]
  simp [String.data_append, newline]

theorem not_mem_of_plainText (text : String) (h : plainText text = true) :
    ',' ∉ text.data ∧ newline ∉ text.data := by
  unfold plainText at h
  rw [List.all_eq_true] at h
  constructor
  · intro hm
    have := h _ hm
    simp at this
  · intro hm
    have := h _ hm
    simp at this

theorem plainTrip_fields (numText : ℚ → String) (t : Trip) (h : plainTrip numText t = true) :
    plainText (csvVehicle t) = true ∧ plainText t.date = true ∧
    plainText (numText t.distance) = true ∧ plainText (numText t.duration) = true ∧
    plainText (numText t.speed) = true ∧ plainText (vidText t.status) = true := by
  simpa [plainTrip, csvFields] using h

theorem splitChars_csvLine (numText : ℚ → String) (t : Trip)
    (h : plainTrip numText t = true) :
    splitChars ',' (csvLine numText t) = (csvFields numText t).map String.data := by
  obtain ⟨h1, h2, h3, h4, h5, h6⟩ := plainTrip_fields numText t h
  unfold csvLine csvFields
  simp only [List.append_assoc, List.singleton_append, List.cons_append, List.nil_append,
    List.map_cons, List.map_nil]
  rw [splitChars_append_sep _ _ _ (not_mem_of_plainText _ h1).1,
    splitChars_append_sep _ _ _ (not_mem_of_plainText _ h2).1,
    splitChars_append_sep _ _ _ (not_mem_of_plainText _ h3).1,
    splitChars_append_sep _ _ _ (not_mem_of_plainText _ h4).1,
    splitChars_append_sep _ _ _ (not_mem_of_plainText _ h5).1,
    splitChars_of_not_mem _ _ (not_mem_of_plainText _ h6).1]

theorem newline_not_mem_csvLine (numText : ℚ → String) (t : Trip)
    (h : plainTrip numText t = true) : newline ∉ csvLine numText t := by
  obtain ⟨h1, h2, h3, h4, h5, h6⟩ := plainTrip_fields numText t h
  have hc : ¬ newline = ',' := by decide
  unfold csvLine
  simp only [List.mem_append, List.mem_singleton, not_or]
  exact ⟨⟨⟨⟨⟨⟨⟨⟨⟨⟨(not_mem_of_plainText _ h1).2, hc⟩, (not_mem_of_plainText _ h2).2⟩, hc⟩,
    (not_mem_of_plainText _ h3).2⟩, hc⟩, (not_mem_of_plainText _ h4).2⟩, hc⟩,
    (not_mem_of_plainText _ h5).2⟩, hc⟩, (not_mem_of_plainText _ h6).2⟩

theorem splitChars_lines (lines : List (List Char)) (h : ∀ l ∈ lines, newline ∉ l) :
    splitChars newline (lines.map (fun l => l ++ [newline])).flatten = lines ++ [[]] := by
  induction lines with
  | nil => simp [splitChars]
  | cons l rest ih =>
    simp only [List.map_cons, List.flatten_cons, List.append_assoc, List.singleton_append,
      List.cons_append, List.nil_append]
    rw [splitChars_append_sep _ _ _ (h l (by simp)),
      ih (fun x hx => h x (List.mem_cons_of_mem _ hx))]

/-- C19, the claim as stated fails: for a trip whose date text contains a comma the
export has the header and one line for the trip, but that line splits on commas into 7
fields. -/
theorem csv_line_with_comma_in_field :
    (splitChars newline (exportTripData wholeText [commaTrip]).data).length = 3 ∧
    (splitChars newline (exportTripData wholeText [commaTrip]).data).map
      (fun line => (splitChars ',' line).length) = [6, 7, 1] := by
  decide

/-- C19 as amended: when no field text of any trip contains a comma or a line feed,
the CSV text of `exportTripData` splits on line feeds into the header line, then one
line per trip in list order (and the empty piece after the last line feed); the header
splits on commas into 6 fields, and the line of each trip splits on commas into exactly
its 6 fields: vehicle id or empty, date, distance, duration, speed, status. -/
theorem csv_export_lines (numText : ℚ → String) (trips : List Trip)
    (hplain : ∀ t ∈ trips, plainTrip numText t = true) :
    splitChars newline (exportTripData numText trips).data
      = csvHeader.data :: (trips.map (csvLine numText) ++ [[]]) ∧
    (splitChars ',' csvHeader.data).length = 6 ∧
    ∀ t ∈ trips,
      splitChars ',' (csvLine numText t) = (csvFields numText t).map String.data ∧
      (splitChars ',' (csvLine numText t)).length = 6 := by
  refine ⟨?_, by decide, ?_⟩
  · rw [exportTripData_data]
    have hh : newline ∉ csvHeader.data := by decide
    rw [splitChars_append_sep _ _ _ hh]
    have hmap : (trips.map (fun t => csvLine numText t ++ [newline]))
        = (trips.map (csvLine numText)).map (fun l => l ++ [newline]) := by
      simp [List.map_map]
    rw [hmap, splitChars_lines]
    intro l hl
    rw [List.mem_map] at hl
    obtain ⟨t, ht, rfl⟩ := hl
    exact newline_not_mem_csvLine numText t (hplain t ht)
  · intro t ht
    have h := splitChars_csvLine numText t (hplain t ht)
    refine ⟨h, ?_⟩
    rw [h]
    simp [csvFields]

theorem csv_export_lines_witness :
    (∀ t ∈ [plainSampleTrip, plainSampleTrip], plainTrip wholeText t = true) ∧
    splitChars newline (exportTripData wholeText [plainSampleTrip, plainSampleTrip]).data
      = csvHeader.data :: ([plainSampleTrip, plainSampleTrip].map (csvLine wholeText) ++ [[]]) :=
  ⟨by decide, (csv_export_lines wholeText [plainSampleTrip, plainSampleTrip] (by decide)).1⟩

/-! ## The next vehicle id -/

theorem digitChar_digit (k : Nat) (hk : k < 10) :
    isDecimalDigit (Nat.digitChar k) = true ∧ digitValue (Nat.digitChar k) = k := by
  interval_cases k <;> decide

theorem toDigitsCore_spec (fuel : Nat) : ∀ (n : Nat) (ds : List Char), n < fuel →
    ∃ pre : List Char, Nat.toDigitsCore 10 fuel n ds = pre ++ ds ∧ pre ≠ [] ∧
      (∀ c ∈ pre, isDecimalDigit c = true) ∧
      ∀ acc : Nat, pre.foldl (fun a c => a * 10 + digitValue c) acc = acc * 10 ^ pre.length + n := by
  induction fuel with
  | zero => intro n ds h; omega
  | succ f ih =>
    intro n ds h
    obtain ⟨hd1, hd2⟩ := digitChar_digit (n % 10) (Nat.mod_lt _ (by norm_num))
    simp only [Nat.toDigitsCore]
    by_cases hq : n / 10 = 0
    · simp only [hq, if_true]
      refine ⟨[Nat.digitChar (n % 10)], rfl, by simp, ?_, ?_⟩
      · intro c hc
        simp at hc
        rw [hc]; exact hd1
      · intro acc
        simp only [List.foldl_cons, List.foldl_nil, hd2, List.length_singleton, pow_one]
        have : n % 10 = n := by omega
        omega
    · simp only [hq, if_false]
      have hlt : n / 10 < f := by omega
      obtain ⟨pre, h1, h2, h3, h4⟩ := ih (n / 10) (Nat.digitChar (n % 10) :: ds) hlt
      refine ⟨pre ++ [Nat.digitChar (n % 10)], ?_, by simp, ?_, ?_⟩
      · rw [h1]; simp
      · intro c hc
        rw [List.mem_append] at hc
        rcases hc with hc | hc
        · exact h3 c hc
        · simp at hc; rw [hc]; exact hd1
      · intro acc
        rw [List.foldl_append, h4]
        simp only [List.foldl_cons, List.foldl_nil, hd2, List.length_append,
          List.length_singleton, pow_succ]
        have := Nat.div_add_mod n 10
        nlinarith [this]

theorem digit_facts (c : Char) (h : isDecimalDigit c = true) :
    jsWhitespace c = false ∧ c ≠ '-' ∧ c ≠ '+' ∧ c ≠ 'x' ∧ c ≠ 'X' := by
  unfold isDecimalDigit at h
  simp only [Bool.and_eq_true, decide_eq_true_eq] at h
  refine ⟨?_, ?_, ?_, ?_, ?_⟩
  · unfold jsWhitespace
    simp only [Bool.or_eq_false_iff, Bool.and_eq_false_iff, decide_eq_false_iff_not]
    omega
  all_goals
    intro e
    rw [e] at h
    revert h
    decide

theorem decimalValue_zeros (k : Nat) (ds : List Char) :
    decimalValue (List.replicate k '0' ++ ds) = decimalValue ds := by
  unfold decimalValue
  rw [List.foldl_append]
  congr 1
  induction k with
  | zero => rfl
  | succ k ih =>
    rw [List.replicate_succ, List.foldl_cons]
    have : (0 * 10 + digitValue '0') = 0 := by decide
    rw [this, ih]

theorem parseInt_digits (text : List Char) (hne : text ≠ [])
    (hall : ∀ c ∈ text, isDecimalDigit c = true) :
    parseInt text = some (decimalValue text : Int) := by
  have htake : text.takeWhile isDecimalDigit = text := by
    rw [List.takeWhile_eq_self_iff]
    exact hall
  cases text with
  | nil => exact absurd rfl hne
  | cons c rest =>
    obtain ⟨f1, f2, f3, f4, f5⟩ := digit_facts c (hall c (by simp))
    have hdrop : (c :: rest).dropWhile jsWhitespace = c :: rest := by
      simp [List.dropWhile, f1]
    have hsign : stripSign (c :: rest) = (false, c :: rest) := by
      simp [stripSign, f2, f3]
    have hhex : hexBody (c :: rest) = none := by
      cases rest with
      | nil => simp [hexBody]
      | cons c1 rest1 =>
        obtain ⟨_, _, _, g4, g5⟩ := digit_facts c1 (hall c1 (by simp))
        simp [hexBody, g4, g5]
    unfold parseInt
    simp only [hdrop, hsign, hhex, htake]
    simp

theorem toDigits_spec (n : Nat) :
    Nat.toDigits 10 n ≠ [] ∧ (∀ c ∈ Nat.toDigits 10 n, isDecimalDigit c = true) ∧
    decimalValue (Nat.toDigits 10 n) = n := by
  obtain ⟨pre, h1, h2, h3, h4⟩ := toDigitsCore_spec (n + 1) n [] (by omega)
  have hpre : Nat.toDigits 10 n = pre := by
    unfold Nat.toDigits
    rw [h1, List.append_nil]
  rw [hpre]
  refine ⟨h2, h3, ?_⟩
  unfold decimalValue
  rw [h4]
  simp

theorem padStart3_spec (n : Nat) :
    (padStart3 (toString n)).data ≠ [] ∧
    (∀ c ∈ (padStart3 (toString n)).data, isDecimalDigit c = true) ∧
    decimalValue (padStart3 (toString n)).data = n := by
  obtain ⟨h1, h2, h3⟩ := toDigits_spec n
  have hdata : (toString n).data = Nat.toDigits 10 n := rfl
  have hpad : (padStart3 (toString n)).data
      = List.replicate (3 - (Nat.toDigits 10 n).length) '0' ++ Nat.toDigits 10 n := by
    simp [padStart3, List.leftpad, hdata]
  rw [hpad]
  refine ⟨by simp [h1], ?_, ?_⟩
  · intro c hc
    rw [List.mem_append] at hc
    rcases hc with hc | hc
    · rw [List.mem_replicate] at hc
      rw [hc.2]
      decide
    · exact h2 c hc
  · rw [decimalValue_zeros, h3]

theorem nextVehicleId_of_pos (n : Nat) (hn : 1 ≤ n) (hb : n + 1 < 2 ^ 53) :
    nextVehicleId (vehicleIdOf n) = vehicleIdOf (n + 1) := by
  obtain ⟨h1, h2, h3⟩ := padStart3_spec n
  have hdash : '-' ∉ (padStart3 (toString n)).data := by
    intro hm
    have := (digit_facts _ (h2 _ hm)).2.1
    exact this rfl
  have hsplit : splitChars '-' (vehicleIdOf n).data
      = ['V', 'E', 'H'] :: [(padStart3 (toString n)).data] := by
    have h0 : (vehicleIdOf n).data = ['V', 'E', 'H'] ++ '-' :: (padStart3 (toString n)).data := by
      simp [vehicleIdOf, String.data_append]
    rw [h0, splitChars_append_sep _ _ _ (by decide), splitChars_of_not_mem _ _ hdash]
  have hparse := parseInt_digits _ h1 h2
  rw [h3] at hparse
  unfold nextVehicleId
  simp only [hsplit, List.getElem?_cons_succ, List.getElem?_cons_zero, Option.some_bind, Option.bind, hparse]
  have hne : ¬ ((n : Int) = 0) := by omega
  simp only [hne, if_false]
  have hover : overflowsWhole (n : Int) = false := by
    unfold overflowsWhole
    rw [decide_eq_false_iff_not, Int.natAbs_ofNat]
    have : (2 : ℕ) ^ 53 ≤ (2 ^ 256) ^ 4 - (2 ^ 194) ^ 5 := by norm_num
    omega
  have hw1 : wholeDouble (n : Int) = (n : Int) := by
    unfold wholeDouble
    rw [if_pos (by rw [Int.natAbs_ofNat]; omega)]
  have hcast : ((n : Int) + 1) = ((n + 1 : Nat) : Int) := by push_cast; rfl
  have hw2 : wholeDouble ((n + 1 : Nat) : Int) = ((n + 1 : Nat) : Int) := by
    unfold wholeDouble
    rw [if_pos (by rw [Int.natAbs_ofNat]; omega)]
  rw [hover, hw1, hcast, hw2, intText_natCast _ hb]
  rfl

/-- C15, the claim as stated fails at `n = 0`: after a successful start for `VEH-000`
the field is set to `VEH-002`, not to `VEH-001`. -/
theorem next_id_after_zero :
    vehicleIdOf 0 = "VEH-000" ∧ vehicleIdOf (0 + 1) = "VEH-001" ∧
    (startTracking (vehicleIdOf 0) (some 41) (some (-8)) (some 42) (some (-9))
      (.decoded { success := true, estimated_duration := 5 })).vehicleIdField = "VEH-002" := by
  decide

/-- C15 as amended: for every `n` with `1 ≤ n` and `n + 1 < 2 ^ 53`, when the submitted
id is `VEH-` followed by `n` zero-padded to at least 3 digits, the four coordinates pass
the validation and the simulation answers with success, the `vehicleId` field is set to
`VEH-` followed by `n + 1` zero-padded to at least 3 digits. -/
theorem next_id_of_positive (n : Nat) (hn : 1 ≤ n) (hb : n + 1 < 2 ^ 53)
    (startLat startLon endLat endLon : Option ℚ)
    (h1 : truthyNumber startLat = true) (h2 : truthyNumber startLon = true)
    (h3 : truthyNumber endLat = true) (h4 : truthyNumber endLon = true)
    (estimated_duration : ℚ) :
    (startTracking (vehicleIdOf n) startLat startLon endLat endLon
      (.decoded { success := true, estimated_duration := estimated_duration })).vehicleIdField
      = vehicleIdOf (n + 1) := by
  have hid : ¬ vehicleIdOf n = "" := by
    intro h
    have hd := congrArg String.data h
    simp [vehicleIdOf, String.data_append] at hd
  unfold startTracking
  simp only [h1, h2, h3, h4, hid, decide_False, Bool.not_true, Bool.or_self, Bool.false_eq_true,
    if_false, if_true]
  exact nextVehicleId_of_pos n hn hb

theorem next_id_of_positive_witness :
    1 ≤ 99 ∧ 99 + 1 < 2 ^ 53 ∧ truthyNumber (some 41) = true ∧
    truthyNumber (some (-8)) = true ∧
    (startTracking (vehicleIdOf 99) (some 41) (some (-8)) (some 41) (some (-8))
      (.decoded { success := true, estimated_duration := 5 })).vehicleIdField
      = vehicleIdOf (99 + 1) :=
  ⟨by decide, by norm_num, by decide, by decide,
   next_id_of_positive 99 (by decide) (by norm_num) (some 41) (some (-8)) (some 41) (some (-8))
     (by decide) (by decide) (by decide) (by decide) 5⟩

/-! ## Validation and failure handling of the requests -/

/-- C14, the code at the failing input: a start latitude of 0 parses to a number, yet
both handlers show their fill-in alert and send no request, whatever the other three
coordinates are. -/
theorem zero_coordinate_rejected (startLon endLat endLon : Option ℚ) (panel : Bool)
    (reply : Reply PredictData) (answer : Reply SimulationData) :
    (getPrediction (some 0) startLon endLat endLon panel reply).alerts
      = [.text "Please fill in all location fields"] ∧
    (getPrediction (some 0) startLon endLat endLon panel reply).requests = [] ∧
    (startTracking "VEH-001" (some 0) startLon endLat endLon answer).alerts
      = [.text "Please fill in all fields"] ∧
    (startTracking "VEH-001" (some 0) startLon endLat endLon answer).requests = [] := by
  simp [getPrediction, startTracking, truthyNumber]

/-- C11, the code at the failing inputs: when the request fails, and when the decoding
of the response fails, the two handlers of the tracking page show one alert, send the
request once and let no error escape; `loadAnalytics` shows no alert and the error
escapes it, the page left as it was. -/
theorem analytics_failure_escapes :
    getPrediction (some 41) (some (-8)) (some 42) (some (-9)) true .requestFailed
      = { alerts := [.text "Error getting prediction. Please try again."]
          requests := [⟨some 41, some (-8), some 42, some (-9)⟩]
          shown := none, escaped := false } ∧
    getPrediction (some 41) (some (-8)) (some 42) (some (-9)) true .decodeFailed
      = { alerts := [.text "Error getting prediction. Please try again."]
          requests := [⟨some 41, some (-8), some 42, some (-9)⟩]
          shown := none, escaped := false } ∧
    startTracking "VEH-001" (some 41) (some (-8)) (some 42) (some (-9)) .requestFailed
      = { alerts := [.text "Error starting tracking. Please try again."]
          requests := [⟨"VEH-001", some 41, some (-8), some 42, some (-9)⟩]
          vehicleIdField := "VEH-001", escaped := false } ∧
    startTracking "VEH-001" (some 41) (some (-8)) (some 42) (some (-9)) .decodeFailed
      = { alerts := [.text "Error starting tracking. Please try again."]
          requests := [⟨"VEH-001", some 41, some (-8), some 42, some (-9)⟩]
          vehicleIdField := "VEH-001", escaped := false } ∧
    loadAnalytics [] fullAnalyticsDom .requestFailed
      = { alerts := [], requests := 1, analyticsTrips := [], dom := fullAnalyticsDom
          chartsDrawn := false, escaped := true } ∧
    loadAnalytics [] fullAnalyticsDom .decodeFailed
      = { alerts := [], requests := 1, analyticsTrips := [], dom := fullAnalyticsDom
          chartsDrawn := false, escaped := true } := by
  decide

/-! ## Voice commands -/

/-- C12: for every role and every command that contains none of the keywords of the
command set of that role, `processCommand` makes exactly one `speak` call and nothing
else (no click, no call, no scroll) and raises no error: the reply is the not-understood
message for customer, driver and admin, and `Unknown role` for any other role. -/
theorem unsupported_command_spoken (role : String) (page : VoicePage) (command : String)
    (h : ∀ k ∈ keywords role, includes command k = false) :
    processCommand role page command
      = { actions := [.speak (if role = "customer" ∨ role = "driver" ∨ role = "admin"
                              then notUnderstood else "Unknown role")]
          thrown := none } := by
  by_cases hc : role = "customer"
  · subst hc
    have k1 := h "book ride" (by decide)
    have k2 := h "book a ride" (by decide)
    have k3 := h "show nearby" (by decide)
    have k4 := h "nearby vehicles" (by decide)
    have k5 := h "cancel" (by decide)
    have k6 := h "help" (by decide)
    simp [processCommand, processCustomerCommand, k1, k2, k3, k4, k5, k6]
  · by_cases hd : role = "driver"
    · subst hd
      have k1 := h "accept ride" (by decide)
      have k2 := h "accept" (by decide)
      have k3 := h "reject ride" (by decide)
      have k4 := h "reject" (by decide)
      have k5 := h "start trip" (by decide)
      have k6 := h "start ride" (by decide)
      have k7 := h "complete trip" (by decide)
      have k8 := h "complete ride" (by decide)
      have k9 := h "go online" (by decide)
      have k10 := h "go offline" (by decide)
      have k11 := h "help" (by decide)
      simp [processCommand, processDriverCommand, k1, k2, k3, k4, k5, k6, k7, k8, k9, k10, k11]
    · by_cases ha : role = "admin"
      · subst ha
        have k1 := h "track vehicle" (by decide)
        have k2 := h "show analytics" (by decide)
        have k3 := h "analytics" (by decide)
        have k4 := h "filter" (by decide)
        have k5 := h "show all" (by decide)
        have k6 := h "refresh" (by decide)
        have k7 := h "help" (by decide)
        simp [processCommand, processAdminCommand, k1, k2, k3, k4, k5, k6, k7]
      · simp [processCommand, hc, hd, ha]

theorem unsupported_command_spoken_witness :
    (∀ k ∈ keywords "driver", includes "sing a song" k = false) ∧
    processCommand "driver" emptyPage "sing a song"
      = { actions := [.speak (if "driver" = "customer" ∨ "driver" = "driver" ∨ "driver" = "admin"
                              then notUnderstood else "Unknown role")]
          thrown := none } :=
  ⟨by decide, unsupported_command_spoken "driver" emptyPage "sing a song" (by decide)⟩

/-- C13, the code at the failing inputs: for `book ride from home to new york` the
destination handed to `bookRide` is `new`, and for `book ride from old town to airport`
the pickup is `old`; a command with two one-word places is passed on as spoken. -/
theorem book_ride_truncates_places :
    processCustomerCommand emptyPage "book ride from home to new york"
      = { actions := [.bookRide "home" "new"], thrown := none } ∧
    processCustomerCommand emptyPage "book ride from old town to airport"
      = { actions := [.bookRide "old" "airport"], thrown := none } ∧
    processCustomerCommand emptyPage "book ride from home to airport"
      = { actions := [.bookRide "home" "airport"], thrown := none } := by
  decide

end Tracking
